import Mathlib

/-!
# Verification of `neststats` (zeha/neststats, `neststats.go`)

A shallow embedding of the weather-enabled variant of `neststats.go`
(the variant whose `main` starts a thermostat poller and a weather
poller and serves `/data` via `httpDataHandler`).

Conventions of the embedding:
* Go `float64` values are represented as `Rat`.  The program performs no
  floating-point arithmetic on them (they are only decoded from JSON,
  copied, and stored into gauges), so the choice of numeric carrier is
  irrelevant to every claim.
* Go `time.Time` values are represented as `Nat` (an abstract monotone
  wall-clock reading); the zero value of `time.Time` is `0`.
* A response body (a `[]byte`) is represented by its JSON parse:
  `Option Json`, where `none` stands for bytes that are not valid JSON.
* `encoding/json.Unmarshal` into a struct is modelled at the fidelity the
  program exercises: top-level `null` or a missing key leaves the target
  field at its zero value without error; a wrong-typed value or an
  unparseable document reports an error while still populating the other
  fields; an object key is matched to a field tag up to ASCII case
  (Go prefers an exact match but also accepts a case-insensitive match,
  and no two tags here collide up to case); keys matching no field are
  ignored; among entries matching the same field the last wins.
-/

/-- JSON values, the parse of a response body. -/
inductive Json where
  | null : Json
  | bool (b : Bool) : Json
  | num (q : Rat) : Json
  | str (s : String) : Json
  | arr (elems : List Json) : Json
  | obj (fields : List (String × Json)) : Json

/-- `type ThermostatData struct` (neststats.go lines 17–23): the thermostat
Reading, with its five JSON-tagged fields. -/
structure ThermostatData where
  currentHumidity : Rat := 0      -- `json:"humidity"`
  currentTemperature : Rat := 0   -- `json:"ambient_temperature_c"`
  targetTemperature : Rat := 0    -- `json:"target_temperature_c"`
  hvacState : String := ""        -- `json:"hvac_state"`
  structureID : String := ""      -- `json:"structure_id"`
deriving DecidableEq, Repr

/-- `type OwmWeatherMain struct` (lines 32–36): the weather Reading. -/
structure OwmWeatherMain where
  temperature : Rat := 0  -- `json:"temp"`
  pressure : Rat := 0     -- `json:"pressure"`
  humidity : Rat := 0     -- `json:"humidity"`
deriving DecidableEq, Repr

/-- `type OwmResult struct` (lines 38–52). -/
structure OwmResult where
  weatherMain : OwmWeatherMain := {}  -- `json:"main"`
deriving DecidableEq, Repr

/-- `type StampedData struct` (lines 25–30): what `/data` serves. -/
structure StampedData where
  thermostatStamp : Nat
  thermostatData : ThermostatData
  weatherStamp : Nat
  weatherData : OwmWeatherMain
deriving DecidableEq, Repr

/-- The Go zero value `ThermostatData{}`. -/
def zeroThermostatData : ThermostatData := {}

/-- The Go zero value `OwmWeatherMain{}`. -/
def zeroOwmWeatherMain : OwmWeatherMain := {}

/-! ## The `encoding/json.Unmarshal` model -/

/-- `encoding/json` key matching (`foldName`): Unmarshal matches an
incoming object key to a struct field name/tag "preferring an exact
match but also accepting a case-insensitive match".  No two field tags
of the structs here collide up to case, so a key matches a field exactly
when the names are equal up to ASCII case.  (Go's fold additionally
identifies certain non-ASCII letters; every tag here is ASCII.) -/
def foldName (k1 k2 : String) : Bool :=
  k1.data.map Char.toLower == k2.data.map Char.toLower

/-- The value a field (named by its tag `key`) receives from a JSON
object: object entries are decoded in document order and each entry
whose key folds to the tag overwrites the field, so the last folding
occurrence wins, as in `encoding/json`. -/
def lookupField (fields : List (String × Json)) (key : String) : Option Json :=
  ((fields.filter (fun kv => foldName kv.1 key)).getLast?).map (fun kv => kv.2)

/-- Decode one `float64` struct field from an object: missing key or JSON
`null` leaves the zero value without error; a number is taken as is; any
other JSON value is a type error (field left at zero, error recorded). -/
def decodeFloatField (fields : List (String × Json)) (key : String) :
    Rat × Option String :=
  match lookupField fields key with
  | none => (0, none)
  | some (Json.num q) => (q, none)
  | some Json.null => (0, none)
  | some _ => (0, some ("json: cannot unmarshal value into float64 field " ++ key))

/-- Decode one `string` struct field from an object; same discipline as
`decodeFloatField`. -/
def decodeStringField (fields : List (String × Json)) (key : String) :
    String × Option String :=
  match lookupField fields key with
  | none => ("", none)
  | some (Json.str s) => (s, none)
  | some Json.null => ("", none)
  | some _ => ("", some ("json: cannot unmarshal value into string field " ++ key))

/-- `json.Unmarshal(body, &data)` with `data` a zero `ThermostatData`
(as at line 120 / line 152): returns the populated struct and the error
`Unmarshal` would report.  `none` input stands for a body that is not
valid JSON (syntax error, target untouched); a non-object, non-null
document is a type error (target untouched); an object is decoded
field-by-field leniently. -/
def jsonUnmarshalThermostatData (body : Option Json) :
    ThermostatData × Option String :=
  match body with
  | none => (zeroThermostatData, some "invalid character: not valid JSON")
  | some Json.null => (zeroThermostatData, none)
  | some (Json.obj fields) =>
    let h := decodeFloatField fields "humidity"
    let a := decodeFloatField fields "ambient_temperature_c"
    let t := decodeFloatField fields "target_temperature_c"
    let hv := decodeStringField fields "hvac_state"
    let st := decodeStringField fields "structure_id"
    ({ currentHumidity := h.1, currentTemperature := a.1,
       targetTemperature := t.1, hvacState := hv.1, structureID := st.1 },
     h.2 <|> a.2 <|> t.2 <|> hv.2 <|> st.2)
  | some _ =>
    (zeroThermostatData, some "json: cannot unmarshal value into ThermostatData")

/-- Decode one nested-struct field (`OwmWeatherMain` under key `"main"`). -/
def decodeWeatherMainField (fields : List (String × Json)) (key : String) :
    OwmWeatherMain × Option String :=
  match lookupField fields key with
  | none => ({}, none)
  | some Json.null => ({}, none)
  | some (Json.obj inner) =>
    let t := decodeFloatField inner "temp"
    let p := decodeFloatField inner "pressure"
    let h := decodeFloatField inner "humidity"
    ({ temperature := t.1, pressure := p.1, humidity := h.1 },
     t.2 <|> p.2 <|> h.2)
  | some _ => ({}, some ("json: cannot unmarshal value into struct field " ++ key))

/-- `json.Unmarshal(body, &result)` with `result` a zero `OwmResult`
(line 182 / line 196). -/
def jsonUnmarshalOwmResult (body : Option Json) :
    OwmResult × Option String :=
  match body with
  | none => ({}, some "invalid character: not valid JSON")
  | some Json.null => ({}, none)
  | some (Json.obj fields) =>
    let m := decodeWeatherMainField fields "main"
    ({ weatherMain := m.1 }, m.2)
  | some _ => ({}, some "json: cannot unmarshal value into OwmResult")

/-! ## The Source Client: `downloadNest` -/

/-- What the upstream HTTP exchange can yield, as seen from inside
`downloadNest` / `downloadWeatherAndStore`:
* `transportError`: `client.Do` / `http.Get` returned a non-nil error
  (response is nil);
* `bodyReadError`: the response arrived but `ioutil.ReadAll` failed;
* `ok status body`: the body was read in full; `status` is the HTTP
  status code and `body` its JSON parse (`none` when not valid JSON). -/
inductive UpstreamResponse where
  | transportError (msg : String) : UpstreamResponse
  | bodyReadError (status : Nat) (msg : String) : UpstreamResponse
  | ok (status : Nat) (body : Option Json) : UpstreamResponse

/-- `func downloadNest` (lines 119–154), as a function of the upstream
exchange outcome.  Transport and body-read errors are returned; the HTTP
status code is never inspected, and the return value of `json.Unmarshal`
(line 152) is discarded, so a decode failure still yields `Except.ok`. -/
def downloadNest (resp : UpstreamResponse) : Except String ThermostatData :=
  match resp with
  | UpstreamResponse.transportError msg => Except.error msg
  | UpstreamResponse.bodyReadError _ msg => Except.error msg
  | UpstreamResponse.ok _status body =>
    Except.ok (jsonUnmarshalThermostatData body).1

/-! ## Cache and Metrics Sink state, and the store paths -/

/-- The seven Prometheus gauges registered in `init` (lines 60–100).
A fresh gauge reads as `0`. -/
structure Gauges where
  envHumidity : Rat := 0         -- promHumidity
  envTemperature : Rat := 0      -- promTemperature
  targetTemperature : Rat := 0   -- promTargetTemperature
  isHeating : Rat := 0           -- promIsHeating
  outsideHumidity : Rat := 0     -- promOutsideHumidity
  outsideTemperature : Rat := 0  -- promOutsideTemperature
  outsidePressure : Rat := 0     -- promOutsidePressure
deriving DecidableEq, Repr

/-- The package-level mutable state (lines 54–58) plus the gauges:
`currentData`, `currentDataTime`, `currentWeather`, `currentWeatherTime`.
The mutex is not part of this sequential view; claim C1 models it
explicitly. -/
structure AppState where
  currentData : ThermostatData := {}
  currentDataTime : Nat := 0
  currentWeather : OwmWeatherMain := {}
  currentWeatherTime : Nat := 0
  gauges : Gauges := {}
deriving DecidableEq, Repr

/-- The initial state of the process: Go zero values, fresh gauges. -/
def initialAppState : AppState := {}

/-- `func downloadNestAndStore` (lines 156–179): fetch, and on success
replace the thermostat cache entry (with `now`, the value of `time.Now()`
at line 166) and set the four thermostat gauges; on error only log. -/
def downloadNestAndStore (resp : UpstreamResponse) (now : Nat)
    (s : AppState) : AppState :=
  match downloadNest resp with
  | Except.error _ => s  -- log.Printf("error: %v", err)
  | Except.ok ts =>
    { s with
      currentData := ts
      currentDataTime := now
      gauges := { s.gauges with
        envHumidity := ts.currentHumidity
        envTemperature := ts.currentTemperature
        targetTemperature := ts.targetTemperature
        isHeating := if ts.hvacState = "heating" then 1 else 0 } }

/-- `func httpDataHandler` (lines 255–266): snapshot the four cache
fields under the mutex into a `StampedData`. -/
def httpDataHandler (s : AppState) : StampedData :=
  { thermostatData := s.currentData
    thermostatStamp := s.currentDataTime
    weatherData := s.currentWeather
    weatherStamp := s.currentWeatherTime }

/-- What one call of `func downloadWeatherAndStore` (lines 181–212) does.
`panicNilDeref` records that the call panics: when `http.Get` returns an
error its response is nil, and `defer resp.Body.Close()` (line 185)
evaluates `resp.Body` at the defer statement, dereferencing nil. -/
inductive WeatherCallResult where
  | panicNilDeref : WeatherCallResult
  | returned (s : AppState) : WeatherCallResult
deriving DecidableEq, Repr

/-- `func downloadWeatherAndStore` (lines 181–212) as a function of the
upstream exchange outcome.  On a transport error the deferred
`resp.Body.Close()` dereferences a nil response and the goroutine panics,
crashing the process.  On a body-read error the function logs and returns
with the state untouched.  Otherwise the `err` checked at line 198 is the
(nil) `ioutil.ReadAll` error, so the store branch always runs, with the
`json.Unmarshal` error of line 196 discarded. -/
def downloadWeatherAndStore (resp : UpstreamResponse) (now : Nat)
    (s : AppState) : WeatherCallResult :=
  match resp with
  | UpstreamResponse.transportError _ => WeatherCallResult.panicNilDeref
  | UpstreamResponse.bodyReadError _ _ => WeatherCallResult.returned s
  | UpstreamResponse.ok _status body =>
    let result := (jsonUnmarshalOwmResult body).1
    WeatherCallResult.returned
      { s with
        currentWeather := result.weatherMain
        currentWeatherTime := now
        gauges := { s.gauges with
          outsideHumidity := result.weatherMain.humidity
          outsideTemperature := result.weatherMain.temperature
          outsidePressure := result.weatherMain.pressure } }

/-! ## `main`: flags, startup order, and the two poller goroutines -/

/-- The six CLI flags (lines 214–219), with their Go defaults. -/
structure Flags where
  listenOn : String := "127.0.0.1:9092"
  clientSecret : String := ""
  thermostatID : String := ""
  doDebug : Bool := false
  owmAPIKey : String := ""
  owmCityID : String := "2761369"
deriving DecidableEq, Repr

/-- The externally observable startup actions of `func main`
(lines 221–253), in program order. -/
inductive MainEvent where
  | fatalExit (msg : String) : MainEvent   -- log.Fatal: nonzero exit
  | logStarting : MainEvent
  | startNestPoller : MainEvent            -- go func() of lines 229–235
  | startWeatherPoller : MainEvent         -- go func() of lines 238–248
  | bindListener (addr : String) : MainEvent  -- http.ListenAndServe
deriving DecidableEq, Repr

/-- The sequence of startup actions `main` performs: the required-flag
check (lines 223–225) comes first and `log.Fatal` ends the process, so
nothing after it happens; otherwise both pollers are started and then the
listener is bound. -/
def mainStartupEvents (f : Flags) : List MainEvent :=
  if f.clientSecret = "" || f.thermostatID = "" then
    [MainEvent.fatalExit "clientSecret or thermostatID missing\n"]
  else
    [MainEvent.logStarting,
     MainEvent.startNestPoller,
     MainEvent.startWeatherPoller,
     MainEvent.bindListener f.listenOn]

/-- Observable actions of a poller goroutine over its lifetime. -/
inductive PollEvent where
  | fetchNest : PollEvent
  | fetchWeather : PollEvent
  | logLine (s : String) : PollEvent
deriving DecidableEq, Repr

/-- The nest poller goroutine (lines 229–235): one immediate fetch, then
one fetch per ticker tick, forever.  `ticks` is the (finite prefix of
the) tick sequence observed. -/
def nestPollerEvents (ticks : List Nat) : List PollEvent :=
  PollEvent.fetchNest ::
    ticks.flatMap (fun _t =>
      [PollEvent.logLine "nestTicker tick", PollEvent.fetchNest])

/-- The weather poller goroutine (lines 238–248): if `--owm-apikey` is
empty it logs once and returns before any fetch; otherwise one immediate
fetch, then one per tick. -/
def weatherPollerEvents (owmAPIKey : String) (ticks : List Nat) :
    List PollEvent :=
  if owmAPIKey = "" then
    [PollEvent.logLine "no OWM Api Key, not fetching weather data"]
  else
    PollEvent.fetchWeather ::
      ticks.flatMap (fun _t =>
        [PollEvent.logLine "weatherTicker tick", PollEvent.fetchWeather])

/-! ## The concurrent cache protocol (claim C1)

The four cache variables are shared between the two poller goroutines and
the `/data` handler goroutines; every access is bracketed by
`currentDataMutex.Lock()` / `Unlock()`.  We model the shared state at the
granularity of single field accesses, so that a torn (field-level mixed)
read is representable, and let an arbitrary scheduler interleave an
arbitrary finite set of threads:
* a nest-writer thread runs the critical section of
  `downloadNestAndStore` lines 164–167: `Lock`; `currentData = ts`;
  `currentDataTime = now`; `Unlock`;
* a weather-writer thread runs the critical section of
  `downloadWeatherAndStore` lines 204–207 likewise;
* a reader thread runs `httpDataHandler` lines 257–262: `Lock`; copy the
  four fields one at a time into its local `StampedData`; `Unlock`.
Each thread's next instruction is determined by its program counter, so a
schedule is just the list of thread indices in execution order; scheduling
a thread that is blocked on the mutex (or finished) does nothing.
`nestHistory` / `weatherHistory` record, for specification purposes only,
the (Reading, timestamp) pair of every *completed* replace (appended at
its `Unlock`). -/

namespace Conc

/-- Program counter of a writer's critical section. -/
inductive WriterPC where
  | start : WriterPC       -- about to call Lock()
  | locked : WriterPC      -- Lock() returned, about to assign the Reading
  | wroteData : WriterPC   -- Reading assigned, about to assign the timestamp
  | wroteTime : WriterPC   -- timestamp assigned, about to call Unlock()
  | done : WriterPC
deriving DecidableEq, Repr

/-- Program counter of a reader (`httpDataHandler`) critical section. -/
inductive ReaderPC where
  | start : ReaderPC           -- about to call Lock()
  | locked : ReaderPC          -- about to copy currentData
  | gotData : ReaderPC         -- about to copy currentDataTime
  | gotDataTime : ReaderPC     -- about to copy currentWeather
  | gotWeather : ReaderPC      -- about to copy currentWeatherTime
  | gotWeatherTime : ReaderPC  -- about to call Unlock()
  | done : ReaderPC
deriving DecidableEq, Repr

/-- One concurrent execution unit.  A writer carries the Reading and the
`time.Now()` value it will store; a reader carries its partially filled
local copy of the four fields (`var data StampedData`, zero before the
copies). -/
inductive Thread where
  | nestWriter (arg : ThermostatData) (argTime : Nat) (pc : WriterPC) : Thread
  | weatherWriter (arg : OwmWeatherMain) (argTime : Nat) (pc : WriterPC) : Thread
  | reader (pc : ReaderPC) (regData : ThermostatData) (regDataTime : Nat)
      (regWeather : OwmWeatherMain) (regWeatherTime : Nat) : Thread
deriving DecidableEq, Repr

/-- A thread that has not executed any instruction yet. -/
def Thread.atStart : Thread → Bool
  | Thread.nestWriter _ _ pc => pc = WriterPC.start
  | Thread.weatherWriter _ _ pc => pc = WriterPC.start
  | Thread.reader pc _ _ _ _ => pc = ReaderPC.start

/-- A thread that currently holds `currentDataMutex`. -/
def Thread.inCrit : Thread → Prop
  | Thread.nestWriter _ _ pc =>
      pc = WriterPC.locked ∨ pc = WriterPC.wroteData ∨ pc = WriterPC.wroteTime
  | Thread.weatherWriter _ _ pc =>
      pc = WriterPC.locked ∨ pc = WriterPC.wroteData ∨ pc = WriterPC.wroteTime
  | Thread.reader pc _ _ _ _ =>
      pc = ReaderPC.locked ∨ pc = ReaderPC.gotData ∨ pc = ReaderPC.gotDataTime ∨
      pc = ReaderPC.gotWeather ∨ pc = ReaderPC.gotWeatherTime

/-- The shared state: the four package-level cache variables (lines
54–57), the mutex (line 58, `lockOwner` = the index of the thread holding
it), the thread pool, and the two specification-only replace histories. -/
structure SysState where
  currentData : ThermostatData
  currentDataTime : Nat
  currentWeather : OwmWeatherMain
  currentWeatherTime : Nat
  lockOwner : Option Nat
  threads : List Thread
  nestHistory : List (ThermostatData × Nat)
  weatherHistory : List (OwmWeatherMain × Nat)
deriving DecidableEq, Repr

/-- The pairs a consistent thermostat cache entry may hold: the initial
zero value, or the full (Reading, timestamp) pair of one completed
replace. -/
def nestGoodPairs (s : SysState) : List (ThermostatData × Nat) :=
  (zeroThermostatData, 0) :: s.nestHistory

/-- The pairs a consistent weather cache entry may hold. -/
def weatherGoodPairs (s : SysState) : List (OwmWeatherMain × Nat) :=
  (zeroOwmWeatherMain, 0) :: s.weatherHistory

/-- Thread `i` executes its next instruction.  `none` means `i` cannot
move: it is out of range, finished, or blocked in `Lock()` while another
thread holds the mutex. -/
def threadStep (s : SysState) (i : Nat) : Option SysState :=
  match s.threads[i]? with
  | none => none
  | some th =>
    match th with
    | Thread.nestWriter a t WriterPC.start =>
      match s.lockOwner with
      | some _ => none  -- blocked in currentDataMutex.Lock()
      | none =>
        some { s with
          lockOwner := some i
          threads := s.threads.set i (Thread.nestWriter a t WriterPC.locked) }
    | Thread.nestWriter a t WriterPC.locked =>
      -- currentData = ts  (line 165)
      some { s with
        currentData := a
        threads := s.threads.set i (Thread.nestWriter a t WriterPC.wroteData) }
    | Thread.nestWriter a t WriterPC.wroteData =>
      -- currentDataTime = time.Now()  (line 166)
      some { s with
        currentDataTime := t
        threads := s.threads.set i (Thread.nestWriter a t WriterPC.wroteTime) }
    | Thread.nestWriter a t WriterPC.wroteTime =>
      -- currentDataMutex.Unlock()  (line 167): the replace is complete
      some { s with
        lockOwner := none
        nestHistory := s.nestHistory ++ [(a, t)]
        threads := s.threads.set i (Thread.nestWriter a t WriterPC.done) }
    | Thread.nestWriter _ _ WriterPC.done => none
    | Thread.weatherWriter a t WriterPC.start =>
      match s.lockOwner with
      | some _ => none
      | none =>
        some { s with
          lockOwner := some i
          threads := s.threads.set i (Thread.weatherWriter a t WriterPC.locked) }
    | Thread.weatherWriter a t WriterPC.locked =>
      -- currentWeather = result.WeatherMain  (line 205)
      some { s with
        currentWeather := a
        threads := s.threads.set i (Thread.weatherWriter a t WriterPC.wroteData) }
    | Thread.weatherWriter a t WriterPC.wroteData =>
      -- currentWeatherTime = time.Now()  (line 206)
      some { s with
        currentWeatherTime := t
        threads := s.threads.set i (Thread.weatherWriter a t WriterPC.wroteTime) }
    | Thread.weatherWriter a t WriterPC.wroteTime =>
      -- currentDataMutex.Unlock()  (line 207)
      some { s with
        lockOwner := none
        weatherHistory := s.weatherHistory ++ [(a, t)]
        threads := s.threads.set i (Thread.weatherWriter a t WriterPC.done) }
    | Thread.weatherWriter _ _ WriterPC.done => none
    | Thread.reader ReaderPC.start rD rDT rW rWT =>
      match s.lockOwner with
      | some _ => none  -- blocked in currentDataMutex.Lock()  (line 257)
      | none =>
        some { s with
          lockOwner := some i
          threads := s.threads.set i (Thread.reader ReaderPC.locked rD rDT rW rWT) }
    | Thread.reader ReaderPC.locked _ rDT rW rWT =>
      -- data.ThermostatData = currentData  (line 258)
      some { s with
        threads := s.threads.set i
          (Thread.reader ReaderPC.gotData s.currentData rDT rW rWT) }
    | Thread.reader ReaderPC.gotData rD _ rW rWT =>
      -- data.ThermostatStamp = currentDataTime  (line 259)
      some { s with
        threads := s.threads.set i
          (Thread.reader ReaderPC.gotDataTime rD s.currentDataTime rW rWT) }
    | Thread.reader ReaderPC.gotDataTime rD rDT _ rWT =>
      -- data.WeatherData = currentWeather  (line 260)
      some { s with
        threads := s.threads.set i
          (Thread.reader ReaderPC.gotWeather rD rDT s.currentWeather rWT) }
    | Thread.reader ReaderPC.gotWeather rD rDT rW _ =>
      -- data.WeatherStamp = currentWeatherTime  (line 261)
      some { s with
        threads := s.threads.set i
          (Thread.reader ReaderPC.gotWeatherTime rD rDT rW s.currentWeatherTime) }
    | Thread.reader ReaderPC.gotWeatherTime rD rDT rW rWT =>
      -- currentDataMutex.Unlock()  (line 262)
      some { s with
        lockOwner := none
        threads := s.threads.set i (Thread.reader ReaderPC.done rD rDT rW rWT) }
    | Thread.reader ReaderPC.done _ _ _ _ => none

/-- Run a schedule: at each entry, the named thread executes its next
instruction if it can. -/
def run (s : SysState) (sched : List Nat) : SysState :=
  match sched with
  | [] => s
  | i :: rest =>
    match threadStep s i with
    | none => run s rest
    | some s2 => run s2 rest

/-- A legal initial state: zero-valued cache (the Go zero values of lines
54–57), free mutex, empty histories, and every thread at the top of its
program; the thread pool and the writers' arguments are arbitrary. -/
def InitSys (s : SysState) : Prop :=
  s.currentData = zeroThermostatData ∧ s.currentDataTime = 0 ∧
  s.currentWeather = zeroOwmWeatherMain ∧ s.currentWeatherTime = 0 ∧
  s.lockOwner = none ∧ s.nestHistory = [] ∧ s.weatherHistory = [] ∧
  ∀ th ∈ s.threads, th.atStart = true

/-- No nest replace is between its first store and its `Unlock`. -/
def nestQuiet (l : List Thread) : Prop :=
  ∀ (j : Nat) (a : ThermostatData) (t : Nat), l[j]? ≠ some (Thread.nestWriter a t WriterPC.wroteData) ∧
           l[j]? ≠ some (Thread.nestWriter a t WriterPC.wroteTime)

/-- No weather replace is between its first store and its `Unlock`. -/
def weatherQuiet (l : List Thread) : Prop :=
  ∀ (j : Nat) (a : OwmWeatherMain) (t : Nat), l[j]? ≠ some (Thread.weatherWriter a t WriterPC.wroteData) ∧
           l[j]? ≠ some (Thread.weatherWriter a t WriterPC.wroteTime)

/-- The inductive invariant of the protocol. -/
structure Inv (s : SysState) : Prop where
  /-- A thread inside a critical section holds the mutex. -/
  ownerCrit : ∀ (j : Nat) (th : Thread), s.threads[j]? = some th → th.inCrit → s.lockOwner = some j
  /-- A nest writer between its two stores has already stored its Reading. -/
  nestMidData : ∀ (j : Nat) (a : ThermostatData) (t : Nat),
    s.threads[j]? = some (Thread.nestWriter a t WriterPC.wroteData) →
    s.currentData = a
  /-- A nest writer after both stores has stored its full pair. -/
  nestMidTime : ∀ (j : Nat) (a : ThermostatData) (t : Nat),
    s.threads[j]? = some (Thread.nestWriter a t WriterPC.wroteTime) →
    s.currentData = a ∧ s.currentDataTime = t
  /-- Unless a nest replace is mid-flight, the thermostat entry is a
  consistent pair. -/
  nestOk : nestQuiet s.threads →
    (s.currentData, s.currentDataTime) ∈ nestGoodPairs s
  /-- A weather writer between its two stores has already stored its Reading. -/
  weatherMidData : ∀ (j : Nat) (a : OwmWeatherMain) (t : Nat),
    s.threads[j]? = some (Thread.weatherWriter a t WriterPC.wroteData) →
    s.currentWeather = a
  /-- A weather writer after both stores has stored its full pair. -/
  weatherMidTime : ∀ (j : Nat) (a : OwmWeatherMain) (t : Nat),
    s.threads[j]? = some (Thread.weatherWriter a t WriterPC.wroteTime) →
    s.currentWeather = a ∧ s.currentWeatherTime = t
  /-- Unless a weather replace is mid-flight, the weather entry is a
  consistent pair. -/
  weatherOk : weatherQuiet s.threads →
    (s.currentWeather, s.currentWeatherTime) ∈ weatherGoodPairs s
  /-- A reader's registers agree with the shared fields it has copied. -/
  readerD : ∀ (j : Nat) (rD : ThermostatData) (rDT : Nat) (rW : OwmWeatherMain) (rWT : Nat),
    s.threads[j]? = some (Thread.reader ReaderPC.gotData rD rDT rW rWT) →
    rD = s.currentData
  readerDT : ∀ (j : Nat) (rD : ThermostatData) (rDT : Nat) (rW : OwmWeatherMain) (rWT : Nat),
    s.threads[j]? = some (Thread.reader ReaderPC.gotDataTime rD rDT rW rWT) →
    rD = s.currentData ∧ rDT = s.currentDataTime
  readerW : ∀ (j : Nat) (rD : ThermostatData) (rDT : Nat) (rW : OwmWeatherMain) (rWT : Nat),
    s.threads[j]? = some (Thread.reader ReaderPC.gotWeather rD rDT rW rWT) →
    rD = s.currentData ∧ rDT = s.currentDataTime ∧ rW = s.currentWeather
  readerWT : ∀ (j : Nat) (rD : ThermostatData) (rDT : Nat) (rW : OwmWeatherMain) (rWT : Nat),
    s.threads[j]? = some (Thread.reader ReaderPC.gotWeatherTime rD rDT rW rWT) →
    rD = s.currentData ∧ rDT = s.currentDataTime ∧
    rW = s.currentWeather ∧ rWT = s.currentWeatherTime
  /-- A finished reader holds one consistent pair per source. -/
  readerDone : ∀ (j : Nat) (rD : ThermostatData) (rDT : Nat) (rW : OwmWeatherMain) (rWT : Nat),
    s.threads[j]? = some (Thread.reader ReaderPC.done rD rDT rW rWT) →
    (rD, rDT) ∈ nestGoodPairs s ∧ (rW, rWT) ∈ weatherGoodPairs s

end Conc

/-! ## Remaining helpers for the claims -/

/-- What `func debug` (lines 268–276) does, as a function of whether its
second argument (the `DumpRequestOut` error) is non-nil. -/
inductive DebugOutcome where
  | logged : DebugOutcome
  | silent : DebugOutcome
  | fatalExit : DebugOutcome  -- log.Fatalf: the process exits
deriving DecidableEq, Repr

/-- `func debug(data []byte, err error)` (lines 268–276): a nil error
logs the data when `--debug` is set; a non-nil error calls `log.Fatalf`,
ending the process. -/
def debugCall (doDebug : Bool) (err : Option String) : DebugOutcome :=
  match err with
  | some _ => DebugOutcome.fatalExit
  | none => if doDebug then DebugOutcome.logged else DebugOutcome.silent

/-- A sequence of thermostat poll cycles: each entry is
(the time the fetch was initiated, the upstream exchange outcome,
the value `time.Now()` takes at the store, line 166).  The cycles of one
poller are sequential (one goroutine), so a plain fold. -/
def runNestFetches (fetches : List (Nat × UpstreamResponse × Nat))
    (s : AppState) : AppState :=
  fetches.foldl (fun st f => downloadNestAndStore f.2.1 f.2.2 st) s

/-! ## Shared helper lemmas -/

theorem lookupField_cons_ne (k : String) (v : Json) (fields : List (String × Json))
    (key : String) (h : foldName k key = false) :
    lookupField ((k, v) :: fields) key = lookupField fields key := by
  simp [lookupField, List.filter_cons, h]

theorem decodeFloatField_cons_ne (k : String) (v : Json)
    (fields : List (String × Json)) (key : String) (h : foldName k key = false) :
    decodeFloatField ((k, v) :: fields) key = decodeFloatField fields key := by
  unfold decodeFloatField
  rw [lookupField_cons_ne k v fields key h]

theorem decodeStringField_cons_ne (k : String) (v : Json)
    (fields : List (String × Json)) (key : String) (h : foldName k key = false) :
    decodeStringField ((k, v) :: fields) key = decodeStringField fields key := by
  unfold decodeStringField
  rw [lookupField_cons_ne k v fields key h]

/-! ## The claims -/

/-- C2, counterexample to the claim as stated: an upstream reply with
HTTP status 500 and a body that is not valid JSON is a failed fetch on
both of the claim's remaining causes (non-2xx status, decode error), yet
`downloadNest` reports it as success, with the zero Reading. -/
theorem C2_counterexample :
    downloadNest (UpstreamResponse.ok 500 none) = Except.ok zeroThermostatData ∧
    (jsonUnmarshalThermostatData none).2 = some "invalid character: not valid JSON" :=
  ⟨rfl, rfl⟩

/-- C2, amended: `downloadNest` returns an error exactly when the
transport fails (request creation, `client.Do`) or reading the body
fails; a non-2xx HTTP status and a JSON decode error are not reported
at all — the fetch is returned as success. -/
theorem C2_downloadNest_error_iff (resp : UpstreamResponse) :
    (∃ e, downloadNest resp = Except.error e) ↔
      ((∃ m, resp = UpstreamResponse.transportError m) ∨
       (∃ st m, resp = UpstreamResponse.bodyReadError st m)) := by
  cases resp with
  | transportError m => simp [downloadNest]
  | bodyReadError st m => simp [downloadNest]
  | ok st body => simp [downloadNest]

/-- C3: the claim says every steady-state fetch error is contained in its
poller (logged, process keeps running).  The code violates it twice: a
transport failure of the weather HTTP request leaves `resp` nil and the
deferred `resp.Body.Close()` (line 185) dereferences nil, panicking the
process; and `debug` (called on every thermostat fetch, line 136) turns a
`DumpRequestOut` error into `log.Fatalf`, exiting the process. -/
theorem C3_weather_transport_error_crashes :
    (∀ msg now s, downloadWeatherAndStore (UpstreamResponse.transportError msg) now s
        = WeatherCallResult.panicNilDeref) ∧
    (∀ dbg e, debugCall dbg (some e) = DebugOutcome.fatalExit) :=
  ⟨fun _ _ _ => rfl, fun _ _ => rfl⟩

/-- C4: a thermostat fetch that returns an error leaves the cache entry
and every gauge exactly as they were: the store is skipped, so a `/data`
read after the failed fetch equals a read before it; likewise the weather
store is skipped on its (survivable) body-read error. -/
theorem C4_failed_fetch_leaves_state (resp : UpstreamResponse) (e : String)
    (now : Nat) (s : AppState)
    (hfail : downloadNest resp = Except.error e) :
    downloadNestAndStore resp now s = s ∧
    httpDataHandler (downloadNestAndStore resp now s) = httpDataHandler s ∧
    (downloadNestAndStore resp now s).gauges = s.gauges ∧
    (∀ st m now2 s2,
      downloadWeatherAndStore (UpstreamResponse.bodyReadError st m) now2 s2
        = WeatherCallResult.returned s2) := by
  have h : downloadNestAndStore resp now s = s := by
    unfold downloadNestAndStore
    rw [hfail]
  exact ⟨h, by rw [h], by rw [h], fun _ _ _ _ => rfl⟩

/-- C4, witness: a transport error at time 5 from the initial state. -/
theorem C4_witness :
    downloadNestAndStore (UpstreamResponse.transportError "dial tcp: i/o timeout") 5
        initialAppState = initialAppState ∧
    httpDataHandler (downloadNestAndStore
        (UpstreamResponse.transportError "dial tcp: i/o timeout") 5 initialAppState)
      = httpDataHandler initialAppState ∧
    (downloadNestAndStore (UpstreamResponse.transportError "dial tcp: i/o timeout") 5
        initialAppState).gauges = initialAppState.gauges ∧
    (∀ st m now2 s2,
      downloadWeatherAndStore (UpstreamResponse.bodyReadError st m) now2 s2
        = WeatherCallResult.returned s2) :=
  C4_failed_fetch_leaves_state (UpstreamResponse.transportError "dial tcp: i/o timeout")
    "dial tcp: i/o timeout" 5 initialAppState rfl

/-- C5: after a successful thermostat fetch, the `is_heating` gauge is 1
iff the fetched Reading's `hvac_state` equals `"heating"`, and 0 for
every other value. -/
theorem C5_isHeating_gauge (resp : UpstreamResponse) (ts : ThermostatData)
    (now : Nat) (s : AppState)
    (hok : downloadNest resp = Except.ok ts) :
    ((downloadNestAndStore resp now s).gauges.isHeating = 1 ↔
      ts.hvacState = "heating") ∧
    (ts.hvacState ≠ "heating" →
      (downloadNestAndStore resp now s).gauges.isHeating = 0) := by
  have h : (downloadNestAndStore resp now s).gauges.isHeating
      = if ts.hvacState = "heating" then 1 else 0 := by
    unfold downloadNestAndStore
    rw [hok]
  rw [h]
  by_cases hh : ts.hvacState = "heating"
  · simp [hh]
  · simp [hh]

/-- C5, witness: a fetch whose body carries `hvac_state: "heating"`. -/
theorem C5_witness :
    ((downloadNestAndStore
        (UpstreamResponse.ok 200 (some (Json.obj [("hvac_state", Json.str "heating")])))
        7 initialAppState).gauges.isHeating = 1 ↔
      ({ hvacState := "heating" } : ThermostatData).hvacState = "heating") ∧
    (({ hvacState := "heating" } : ThermostatData).hvacState ≠ "heating" →
      (downloadNestAndStore
        (UpstreamResponse.ok 200 (some (Json.obj [("hvac_state", Json.str "heating")])))
        7 initialAppState).gauges.isHeating = 0) :=
  C5_isHeating_gauge
    (UpstreamResponse.ok 200 (some (Json.obj [("hvac_state", Json.str "heating")])))
    { hvacState := "heating" } 7 initialAppState rfl

/-- C6: decoding an object body is lenient: the fetch succeeds with the
decoded Reading whatever the object contains; a field whose tag no key
matches (up to `encoding/json` case folding) is left at the type's zero
value; a key that matches no field's tag (up to the same folding) does
not affect the decoded Reading at all. -/
theorem C6_lenient_decoding (fields : List (String × Json)) (status : Nat) :
    downloadNest (UpstreamResponse.ok status (some (Json.obj fields)))
      = Except.ok (jsonUnmarshalThermostatData (some (Json.obj fields))).1 ∧
    (lookupField fields "humidity" = none →
      (jsonUnmarshalThermostatData (some (Json.obj fields))).1.currentHumidity = 0) ∧
    (lookupField fields "ambient_temperature_c" = none →
      (jsonUnmarshalThermostatData (some (Json.obj fields))).1.currentTemperature = 0) ∧
    (lookupField fields "target_temperature_c" = none →
      (jsonUnmarshalThermostatData (some (Json.obj fields))).1.targetTemperature = 0) ∧
    (lookupField fields "hvac_state" = none →
      (jsonUnmarshalThermostatData (some (Json.obj fields))).1.hvacState = "") ∧
    (lookupField fields "structure_id" = none →
      (jsonUnmarshalThermostatData (some (Json.obj fields))).1.structureID = "") ∧
    (∀ k v, foldName k "humidity" = false →
      foldName k "ambient_temperature_c" = false →
      foldName k "target_temperature_c" = false →
      foldName k "hvac_state" = false →
      foldName k "structure_id" = false →
      (jsonUnmarshalThermostatData (some (Json.obj ((k, v) :: fields)))).1
        = (jsonUnmarshalThermostatData (some (Json.obj fields))).1) := by
  refine ⟨rfl, ?_, ?_, ?_, ?_, ?_, ?_⟩
  · intro h
    simp [jsonUnmarshalThermostatData, decodeFloatField, h]
  · intro h
    simp [jsonUnmarshalThermostatData, decodeFloatField, h]
  · intro h
    simp [jsonUnmarshalThermostatData, decodeFloatField, h]
  · intro h
    simp [jsonUnmarshalThermostatData, decodeStringField, h]
  · intro h
    simp [jsonUnmarshalThermostatData, decodeStringField, h]
  · intro k v h1 h2 h3 h4 h5
    simp only [jsonUnmarshalThermostatData]
    rw [decodeFloatField_cons_ne k v fields _ h1,
      decodeFloatField_cons_ne k v fields _ h2,
      decodeFloatField_cons_ne k v fields _ h3,
      decodeStringField_cons_ne k v fields _ h4,
      decodeStringField_cons_ne k v fields _ h5]

/-- C6, witness: a body with only `ambient_temperature_c`, and the same
body with an unknown key prepended. -/
theorem C6_witness :
    (jsonUnmarshalThermostatData
        (some (Json.obj [("ambient_temperature_c", Json.num 21)]))).1.currentHumidity
      = 0 ∧
    (jsonUnmarshalThermostatData
        (some (Json.obj (("x_unknown", Json.bool true) ::
          [("ambient_temperature_c", Json.num 21)])))).1
      = (jsonUnmarshalThermostatData
        (some (Json.obj [("ambient_temperature_c", Json.num 21)]))).1 :=
  ⟨(C6_lenient_decoding [("ambient_temperature_c", Json.num 21)] 200).2.1 rfl,
   (C6_lenient_decoding [("ambient_temperature_c", Json.num 21)] 200).2.2.2.2.2.2
     "x_unknown" (Json.bool true) (by decide) (by decide) (by decide) (by decide)
     (by decide)⟩

/-- C7: with `--owm-apikey` empty the weather goroutine performs zero
fetches over any lifetime, while the nest goroutine performs its
immediate startup fetch plus one fetch per tick. -/
theorem C7_empty_owm_key_skips_weather (wticks nticks : List Nat) :
    (weatherPollerEvents "" wticks).count PollEvent.fetchWeather = 0 ∧
    (nestPollerEvents nticks).count PollEvent.fetchNest = nticks.length + 1 := by
  constructor
  · rfl
  · have haux : ∀ ts : List Nat,
        (ts.flatMap (fun _t =>
          [PollEvent.logLine "nestTicker tick", PollEvent.fetchNest])).count
            PollEvent.fetchNest = ts.length := by
      intro ts
      induction ts with
      | nil => rfl
      | cons t ts ih =>
        simp [List.flatMap_cons, List.count_append, List.count_cons, ih]
    simp [nestPollerEvents, List.count_cons, haux]

/-- C8: after a nonempty sequence of successful thermostat fetch cycles,
a `/data` read returns the last cycle's Reading, stamped with that
cycle's store time, which is at least the time the cycle's fetch was
initiated (the clock does not run backwards across one fetch). -/
theorem C8_read_after_fetches (fetches : List (Nat × UpstreamResponse × Nat))
    (s : AppState) (hne : fetches ≠ [])
    (hsucc : ∀ f ∈ fetches, ∃ ts, downloadNest f.2.1 = Except.ok ts)
    (hclock : ∀ f ∈ fetches, f.1 ≤ f.2.2) :
    downloadNest (fetches.getLast hne).2.1
      = Except.ok (httpDataHandler (runNestFetches fetches s)).thermostatData ∧
    (httpDataHandler (runNestFetches fetches s)).thermostatStamp
      = (fetches.getLast hne).2.2 ∧
    (fetches.getLast hne).1
      ≤ (httpDataHandler (runNestFetches fetches s)).thermostatStamp := by
  obtain ⟨l, x, hlx⟩ : ∃ l x, fetches = l ++ [x] :=
    ⟨fetches.dropLast, fetches.getLast hne, (List.dropLast_append_getLast hne).symm⟩
  subst hlx
  have hgl : (l ++ [x]).getLast hne = x := by
    rw [List.getLast_append]
    rfl
  have hrun : runNestFetches (l ++ [x]) s
      = downloadNestAndStore x.2.1 x.2.2 (runNestFetches l s) := by
    unfold runNestFetches
    rw [List.foldl_append]
    rfl
  obtain ⟨ts, hts⟩ := hsucc x (by simp)
  have hstore : downloadNestAndStore x.2.1 x.2.2 (runNestFetches l s)
      = { runNestFetches l s with
          currentData := ts
          currentDataTime := x.2.2
          gauges := { (runNestFetches l s).gauges with
            envHumidity := ts.currentHumidity
            envTemperature := ts.currentTemperature
            targetTemperature := ts.targetTemperature
            isHeating := if ts.hvacState = "heating" then 1 else 0 } } := by
    unfold downloadNestAndStore
    rw [hts]
  rw [hgl, hrun, hstore]
  exact ⟨hts, rfl, hclock x (by simp)⟩

/-- C8, witness: two successful fetch cycles; the read returns the second
Reading with the second store time 3 ≥ its initiation time 2. -/
theorem C8_witness :
    downloadNest (UpstreamResponse.ok 200 (some (Json.obj [("humidity", Json.num 50)])))
      = Except.ok (httpDataHandler (runNestFetches
          [(0, UpstreamResponse.ok 200 (some (Json.obj [])), 1),
           (2, UpstreamResponse.ok 200 (some (Json.obj [("humidity", Json.num 50)])), 3)]
          initialAppState)).thermostatData ∧
    (httpDataHandler (runNestFetches
        [(0, UpstreamResponse.ok 200 (some (Json.obj [])), 1),
         (2, UpstreamResponse.ok 200 (some (Json.obj [("humidity", Json.num 50)])), 3)]
        initialAppState)).thermostatStamp = 3 ∧
    (2 : Nat) ≤ (httpDataHandler (runNestFetches
        [(0, UpstreamResponse.ok 200 (some (Json.obj [])), 1),
         (2, UpstreamResponse.ok 200 (some (Json.obj [("humidity", Json.num 50)])), 3)]
        initialAppState)).thermostatStamp :=
  C8_read_after_fetches
    [(0, UpstreamResponse.ok 200 (some (Json.obj [])), 1),
     (2, UpstreamResponse.ok 200 (some (Json.obj [("humidity", Json.num 50)])), 3)]
    initialAppState (by simp)
    (by
      intro f hf
      simp only [List.mem_cons, List.mem_singleton] at hf
      rcases hf with rfl | rfl | h
      · exact ⟨{}, rfl⟩
      · exact ⟨{ currentHumidity := 50 }, rfl⟩
      · cases h)
    (by
      intro f hf
      simp only [List.mem_cons, List.mem_singleton] at hf
      rcases hf with rfl | rfl | h
      · exact Nat.zero_le 1
      · exact Nat.le_succ 2
      · cases h)

/-- C9: an empty `--client-secret` or `--thermostat-id` makes `main` exit
fatally before starting any poller or binding the listener; with both
non-empty, startup proceeds through both pollers to the bind. -/
theorem C9_required_flags_check (f : Flags) :
    ((f.clientSecret = "" ∨ f.thermostatID = "") →
      mainStartupEvents f
        = [MainEvent.fatalExit "clientSecret or thermostatID missing\n"] ∧
      (∀ a, MainEvent.bindListener a ∉ mainStartupEvents f) ∧
      MainEvent.startNestPoller ∉ mainStartupEvents f ∧
      MainEvent.startWeatherPoller ∉ mainStartupEvents f) ∧
    (f.clientSecret ≠ "" → f.thermostatID ≠ "" →
      mainStartupEvents f
        = [MainEvent.logStarting, MainEvent.startNestPoller,
           MainEvent.startWeatherPoller, MainEvent.bindListener f.listenOn]) := by
  constructor
  · intro h
    have he : mainStartupEvents f
        = [MainEvent.fatalExit "clientSecret or thermostatID missing\n"] := by
      rcases h with h | h <;> simp [mainStartupEvents, h]
    refine ⟨he, ?_, ?_, ?_⟩ <;> simp [he]
  · intro h1 h2
    simp [mainStartupEvents, h1, h2]

/-- C9, witness: default flags (both required flags empty) exit fatally;
filling both proceeds to the bind on the default listen address. -/
theorem C9_witness :
    mainStartupEvents {}
      = [MainEvent.fatalExit "clientSecret or thermostatID missing\n"] ∧
    mainStartupEvents { clientSecret := "secret", thermostatID := "thermo" }
      = [MainEvent.logStarting, MainEvent.startNestPoller,
         MainEvent.startWeatherPoller, MainEvent.bindListener "127.0.0.1:9092"] :=
  ⟨((C9_required_flags_check {}).1 (Or.inl rfl)).1,
   (C9_required_flags_check { clientSecret := "secret", thermostatID := "thermo" }).2
     (by decide) (by decide)⟩

/-- C10: a body that is read in full but does not decode as the Reading
shape (for any HTTP status, e.g. a non-2xx error page) is treated as a
successful fetch of the all-zero Reading: the store path then replaces
the cached Reading and timestamp and resets all four thermostat gauges
to zero, whatever good values they held. -/
theorem C10_undecodable_body_zeroes (status : Nat) (body : Option Json)
    (now : Nat) (s : AppState) (e : String)
    (hbad : jsonUnmarshalThermostatData body = (zeroThermostatData, some e)) :
    downloadNest (UpstreamResponse.ok status body) = Except.ok zeroThermostatData ∧
    (downloadNestAndStore (UpstreamResponse.ok status body) now s).currentData
      = zeroThermostatData ∧
    (downloadNestAndStore (UpstreamResponse.ok status body) now s).currentDataTime
      = now ∧
    (downloadNestAndStore (UpstreamResponse.ok status body) now s).gauges.envHumidity
      = 0 ∧
    (downloadNestAndStore (UpstreamResponse.ok status body) now s).gauges.envTemperature
      = 0 ∧
    (downloadNestAndStore (UpstreamResponse.ok status body) now s).gauges.targetTemperature
      = 0 ∧
    (downloadNestAndStore (UpstreamResponse.ok status body) now s).gauges.isHeating
      = 0 := by
  have hdn : downloadNest (UpstreamResponse.ok status body)
      = Except.ok zeroThermostatData := by
    have hred : downloadNest (UpstreamResponse.ok status body)
        = Except.ok (jsonUnmarshalThermostatData body).1 := rfl
    rw [hred, hbad]
  have hst : downloadNestAndStore (UpstreamResponse.ok status body) now s
      = { s with
          currentData := zeroThermostatData
          currentDataTime := now
          gauges := { s.gauges with
            envHumidity := 0
            envTemperature := 0
            targetTemperature := 0
            isHeating := 0 } } := by
    unfold downloadNestAndStore
    rw [hdn]
    rfl
  rw [hst]
  exact ⟨hdn, rfl, rfl, rfl, rfl, rfl, rfl⟩

/-- C10, witness: an HTML error page (not valid JSON) with status 401. -/
theorem C10_witness :
    downloadNest (UpstreamResponse.ok 401 none) = Except.ok zeroThermostatData ∧
    (downloadNestAndStore (UpstreamResponse.ok 401 none) 9
        { currentData := { currentHumidity := 44, hvacState := "heating" }
          currentDataTime := 4
          gauges := { envHumidity := 44, isHeating := 1 } }).currentData
      = zeroThermostatData ∧
    (downloadNestAndStore (UpstreamResponse.ok 401 none) 9
        { currentData := { currentHumidity := 44, hvacState := "heating" }
          currentDataTime := 4
          gauges := { envHumidity := 44, isHeating := 1 } }).currentDataTime = 9 ∧
    (downloadNestAndStore (UpstreamResponse.ok 401 none) 9
        { currentData := { currentHumidity := 44, hvacState := "heating" }
          currentDataTime := 4
          gauges := { envHumidity := 44, isHeating := 1 } }).gauges.envHumidity = 0 ∧
    (downloadNestAndStore (UpstreamResponse.ok 401 none) 9
        { currentData := { currentHumidity := 44, hvacState := "heating" }
          currentDataTime := 4
          gauges := { envHumidity := 44, isHeating := 1 } }).gauges.envTemperature = 0 ∧
    (downloadNestAndStore (UpstreamResponse.ok 401 none) 9
        { currentData := { currentHumidity := 44, hvacState := "heating" }
          currentDataTime := 4
          gauges := { envHumidity := 44, isHeating := 1 } }).gauges.targetTemperature
      = 0 ∧
    (downloadNestAndStore (UpstreamResponse.ok 401 none) 9
        { currentData := { currentHumidity := 44, hvacState := "heating" }
          currentDataTime := 4
          gauges := { envHumidity := 44, isHeating := 1 } }).gauges.isHeating = 0 :=
  C10_undecodable_body_zeroes 401 none 9
    { currentData := { currentHumidity := 44, hvacState := "heating" }
      currentDataTime := 4
      gauges := { envHumidity := 44, isHeating := 1 } }
    "invalid character: not valid JSON" rfl

namespace Conc

theorem getElem?_some_lt {α : Type} {l : List α} {i : Nat} {a : α}
    (h : l[i]? = some a) : i < l.length := by
  by_contra hc
  rw [List.getElem?_eq_none_iff.mpr (Nat.le_of_not_lt hc)] at h
  cases h

theorem getElem?_set_inv {α : Type} {l : List α} {i j : Nat} {v w : α}
    (hi : i < l.length) (h2 : (l.set i v)[j]? = some w) :
    (j = i ∧ w = v) ∨ (j ≠ i ∧ l[j]? = some w) := by
  by_cases hj : j = i
  · subst hj
    rw [List.getElem?_set_eq hi] at h2
    exact Or.inl ⟨rfl, (Option.some_inj.mp h2).symm⟩
  · refine Or.inr ⟨hj, ?_⟩
    rwa [List.getElem?_set_ne (fun he => hj he.symm)] at h2

theorem crit_unique {s : SysState} (hinv : Inv s) {i j : Nat} {thi thj : Thread}
    (hi : s.threads[i]? = some thi) (hj : s.threads[j]? = some thj)
    (hci : thi.inCrit) (hcj : thj.inCrit) : j = i := by
  have h1 := hinv.ownerCrit i thi hi hci
  have h2 := hinv.ownerCrit j thj hj hcj
  rw [h1] at h2
  exact (Option.some_inj.mp h2).symm

theorem mem_cons_append {α : Type} {p q : α} {l1 l2 : List α}
    (h : p ∈ q :: l1) : p ∈ q :: (l1 ++ l2) := by
  rcases List.mem_cons.mp h with rfl | hm
  · exact List.mem_cons_self _ _
  · exact List.mem_cons_of_mem _ (List.mem_append_left _ hm)

/-- A legal initial state satisfies the invariant. -/
theorem inv_init {s : SysState} (hinit : InitSys s) : Inv s := by
  obtain ⟨hcd, hcdt, hcw, hcwt, hlock, hnh, hwh, hth⟩ := hinit
  have hstart : ∀ (j : Nat) (th : Thread), s.threads[j]? = some th → th.atStart = true :=
    fun j th hj => hth th (List.getElem?_mem hj)
  have hnocrit : ∀ (j : Nat) (th : Thread), s.threads[j]? = some th → ¬ th.inCrit := by
    intro j th hj hc
    have hs := hstart j th hj
    cases th with
    | nestWriter a t pc =>
      simp [Thread.atStart] at hs
      subst hs
      simp [Thread.inCrit] at hc
    | weatherWriter a t pc =>
      simp [Thread.atStart] at hs
      subst hs
      simp [Thread.inCrit] at hc
    | reader pc rD rDT rW rWT =>
      simp [Thread.atStart] at hs
      subst hs
      simp [Thread.inCrit] at hc
  refine ⟨?_, ?_, ?_, ?_, ?_, ?_, ?_, ?_, ?_, ?_, ?_, ?_⟩
  · intro j th hj hc
    exact absurd hc (hnocrit j th hj)
  · intro j a t hj
    have hs := hstart j _ hj
    simp [Thread.atStart] at hs
  · intro j a t hj
    have hs := hstart j _ hj
    simp [Thread.atStart] at hs
  · intro _
    rw [hcd, hcdt]
    simp [nestGoodPairs]
  · intro j a t hj
    have hs := hstart j _ hj
    simp [Thread.atStart] at hs
  · intro j a t hj
    have hs := hstart j _ hj
    simp [Thread.atStart] at hs
  · intro _
    rw [hcw, hcwt]
    simp [weatherGoodPairs]
  · intro j rD rDT rW rWT hj
    have hs := hstart j _ hj
    simp [Thread.atStart] at hs
  · intro j rD rDT rW rWT hj
    have hs := hstart j _ hj
    simp [Thread.atStart] at hs
  · intro j rD rDT rW rWT hj
    have hs := hstart j _ hj
    simp [Thread.atStart] at hs
  · intro j rD rDT rW rWT hj
    have hs := hstart j _ hj
    simp [Thread.atStart] at hs
  · intro j rD rDT rW rWT hj
    have hs := hstart j _ hj
    simp [Thread.atStart] at hs

end Conc

namespace Conc

/-- Preservation: a nest writer acquires the mutex. -/
theorem inv_step_nestLock {s : SysState} {i : Nat} {a : ThermostatData} {t : Nat}
    (hinv : Inv s)
    (hget : s.threads[i]? = some (Thread.nestWriter a t WriterPC.start))
    (hfree : s.lockOwner = none) :
    Inv { s with
      lockOwner := some i
      threads := s.threads.set i (Thread.nestWriter a t WriterPC.locked) } := by
  have hlen : i < s.threads.length := getElem?_some_lt hget
  have hnocrit : ∀ (j : Nat) (th : Thread), s.threads[j]? = some th → ¬ th.inCrit := by
    intro j th hj hc
    have h1 := hinv.ownerCrit j th hj hc
    rw [hfree] at h1
    cases h1
  refine ⟨?_, ?_, ?_, ?_, ?_, ?_, ?_, ?_, ?_, ?_, ?_, ?_⟩
  · intro j th hj hc
    rcases getElem?_set_inv hlen hj with ⟨rfl, rfl⟩ | ⟨hne, hold⟩
    · rfl
    · exact absurd hc (hnocrit j th hold)
  · intro j a2 t2 hj
    rcases getElem?_set_inv hlen hj with ⟨rfl, hv⟩ | ⟨hne, hold⟩
    · simp at hv
    · exact hinv.nestMidData j a2 t2 hold
  · intro j a2 t2 hj
    rcases getElem?_set_inv hlen hj with ⟨rfl, hv⟩ | ⟨hne, hold⟩
    · simp at hv
    · exact hinv.nestMidTime j a2 t2 hold
  · intro hq2
    have hsq : nestQuiet s.threads := by
      intro j a2 t2
      by_cases hj : j = i
      · subst hj
        simp [hget]
      · have h2 := hq2 j a2 t2
        rw [List.getElem?_set_ne (fun he => hj he.symm)] at h2
        exact h2
    exact hinv.nestOk hsq
  · intro j a2 t2 hj
    rcases getElem?_set_inv hlen hj with ⟨rfl, hv⟩ | ⟨hne, hold⟩
    · simp at hv
    · exact hinv.weatherMidData j a2 t2 hold
  · intro j a2 t2 hj
    rcases getElem?_set_inv hlen hj with ⟨rfl, hv⟩ | ⟨hne, hold⟩
    · simp at hv
    · exact hinv.weatherMidTime j a2 t2 hold
  · intro hq2
    have hsq : weatherQuiet s.threads := by
      intro j a2 t2
      by_cases hj : j = i
      · subst hj
        simp [hget]
      · have h2 := hq2 j a2 t2
        rw [List.getElem?_set_ne (fun he => hj he.symm)] at h2
        exact h2
    exact hinv.weatherOk hsq
  · intro j rD rDT rW rWT hj
    rcases getElem?_set_inv hlen hj with ⟨rfl, hv⟩ | ⟨hne, hold⟩
    · simp at hv
    · exact hinv.readerD j rD rDT rW rWT hold
  · intro j rD rDT rW rWT hj
    rcases getElem?_set_inv hlen hj with ⟨rfl, hv⟩ | ⟨hne, hold⟩
    · simp at hv
    · exact hinv.readerDT j rD rDT rW rWT hold
  · intro j rD rDT rW rWT hj
    rcases getElem?_set_inv hlen hj with ⟨rfl, hv⟩ | ⟨hne, hold⟩
    · simp at hv
    · exact hinv.readerW j rD rDT rW rWT hold
  · intro j rD rDT rW rWT hj
    rcases getElem?_set_inv hlen hj with ⟨rfl, hv⟩ | ⟨hne, hold⟩
    · simp at hv
    · exact hinv.readerWT j rD rDT rW rWT hold
  · intro j rD rDT rW rWT hj
    rcases getElem?_set_inv hlen hj with ⟨rfl, hv⟩ | ⟨hne, hold⟩
    · simp at hv
    · exact hinv.readerDone j rD rDT rW rWT hold

end Conc

namespace Conc

/-- Preservation: a nest writer stores its Reading (`currentData = ts`). -/
theorem inv_step_nestWriteData {s : SysState} {i : Nat} {a : ThermostatData}
    {t : Nat} (hinv : Inv s)
    (hget : s.threads[i]? = some (Thread.nestWriter a t WriterPC.locked)) :
    Inv { s with
      currentData := a
      threads := s.threads.set i (Thread.nestWriter a t WriterPC.wroteData) } := by
  have hlen : i < s.threads.length := getElem?_some_lt hget
  have hciOld : (Thread.nestWriter a t WriterPC.locked).inCrit := Or.inl rfl
  have hownI : s.lockOwner = some i := hinv.ownerCrit i _ hget hciOld
  have huniq : ∀ (j : Nat) (th : Thread), s.threads[j]? = some th →
      th.inCrit → j = i := fun j th hj hc => crit_unique hinv hget hj hciOld hc
  refine ⟨?_, ?_, ?_, ?_, ?_, ?_, ?_, ?_, ?_, ?_, ?_, ?_⟩
  · intro j th hj hc
    rcases getElem?_set_inv hlen hj with ⟨rfl, rfl⟩ | ⟨hne, hold⟩
    · exact hownI
    · exact hinv.ownerCrit j th hold hc
  · intro j a2 t2 hj
    rcases getElem?_set_inv hlen hj with ⟨rfl, hv⟩ | ⟨hne, hold⟩
    · simp at hv
      exact hv.1.symm
    · exact absurd (huniq j _ hold (Or.inr (Or.inl rfl))) hne
  · intro j a2 t2 hj
    rcases getElem?_set_inv hlen hj with ⟨rfl, hv⟩ | ⟨hne, hold⟩
    · simp at hv
    · exact absurd (huniq j _ hold (Or.inr (Or.inr rfl))) hne
  · intro hq2
    exfalso
    have h2 := (hq2 i a t).1
    rw [List.getElem?_set_eq hlen] at h2
    exact h2 rfl
  · intro j a2 t2 hj
    rcases getElem?_set_inv hlen hj with ⟨rfl, hv⟩ | ⟨hne, hold⟩
    · simp at hv
    · exact hinv.weatherMidData j a2 t2 hold
  · intro j a2 t2 hj
    rcases getElem?_set_inv hlen hj with ⟨rfl, hv⟩ | ⟨hne, hold⟩
    · simp at hv
    · exact hinv.weatherMidTime j a2 t2 hold
  · intro hq2
    have hsq : weatherQuiet s.threads := by
      intro j a2 t2
      by_cases hj : j = i
      · subst hj
        simp [hget]
      · have h2 := hq2 j a2 t2
        rw [List.getElem?_set_ne (fun he => hj he.symm)] at h2
        exact h2
    exact hinv.weatherOk hsq
  · intro j rD rDT rW rWT hj
    rcases getElem?_set_inv hlen hj with ⟨rfl, hv⟩ | ⟨hne, hold⟩
    · simp at hv
    · exact absurd (huniq j _ hold (Or.inr (Or.inl rfl))) hne
  · intro j rD rDT rW rWT hj
    rcases getElem?_set_inv hlen hj with ⟨rfl, hv⟩ | ⟨hne, hold⟩
    · simp at hv
    · exact absurd (huniq j _ hold (Or.inr (Or.inr (Or.inl rfl)))) hne
  · intro j rD rDT rW rWT hj
    rcases getElem?_set_inv hlen hj with ⟨rfl, hv⟩ | ⟨hne, hold⟩
    · simp at hv
    · exact absurd (huniq j _ hold (Or.inr (Or.inr (Or.inr (Or.inl rfl))))) hne
  · intro j rD rDT rW rWT hj
    rcases getElem?_set_inv hlen hj with ⟨rfl, hv⟩ | ⟨hne, hold⟩
    · simp at hv
    · exact absurd (huniq j _ hold (Or.inr (Or.inr (Or.inr (Or.inr rfl))))) hne
  · intro j rD rDT rW rWT hj
    rcases getElem?_set_inv hlen hj with ⟨rfl, hv⟩ | ⟨hne, hold⟩
    · simp at hv
    · exact hinv.readerDone j rD rDT rW rWT hold

/-- Preservation: a nest writer stores its timestamp
(`currentDataTime = time.Now()`). -/
theorem inv_step_nestWriteTime {s : SysState} {i : Nat} {a : ThermostatData}
    {t : Nat} (hinv : Inv s)
    (hget : s.threads[i]? = some (Thread.nestWriter a t WriterPC.wroteData)) :
    Inv { s with
      currentDataTime := t
      threads := s.threads.set i (Thread.nestWriter a t WriterPC.wroteTime) } := by
  have hlen : i < s.threads.length := getElem?_some_lt hget
  have hciOld : (Thread.nestWriter a t WriterPC.wroteData).inCrit :=
    Or.inr (Or.inl rfl)
  have hownI : s.lockOwner = some i := hinv.ownerCrit i _ hget hciOld
  have huniq : ∀ (j : Nat) (th : Thread), s.threads[j]? = some th →
      th.inCrit → j = i := fun j th hj hc => crit_unique hinv hget hj hciOld hc
  refine ⟨?_, ?_, ?_, ?_, ?_, ?_, ?_, ?_, ?_, ?_, ?_, ?_⟩
  · intro j th hj hc
    rcases getElem?_set_inv hlen hj with ⟨rfl, rfl⟩ | ⟨hne, hold⟩
    · exact hownI
    · exact hinv.ownerCrit j th hold hc
  · intro j a2 t2 hj
    rcases getElem?_set_inv hlen hj with ⟨rfl, hv⟩ | ⟨hne, hold⟩
    · simp at hv
    · exact absurd (huniq j _ hold (Or.inr (Or.inl rfl))) hne
  · intro j a2 t2 hj
    rcases getElem?_set_inv hlen hj with ⟨rfl, hv⟩ | ⟨hne, hold⟩
    · simp at hv
      constructor
      · rw [hv.1]
        exact hinv.nestMidData _ a t hget
      · rw [hv.2]
    · exact absurd (huniq j _ hold (Or.inr (Or.inr rfl))) hne
  · intro hq2
    exfalso
    have h2 := (hq2 i a t).2
    rw [List.getElem?_set_eq hlen] at h2
    exact h2 rfl
  · intro j a2 t2 hj
    rcases getElem?_set_inv hlen hj with ⟨rfl, hv⟩ | ⟨hne, hold⟩
    · simp at hv
    · exact hinv.weatherMidData j a2 t2 hold
  · intro j a2 t2 hj
    rcases getElem?_set_inv hlen hj with ⟨rfl, hv⟩ | ⟨hne, hold⟩
    · simp at hv
    · exact hinv.weatherMidTime j a2 t2 hold
  · intro hq2
    have hsq : weatherQuiet s.threads := by
      intro j a2 t2
      by_cases hj : j = i
      · subst hj
        simp [hget]
      · have h2 := hq2 j a2 t2
        rw [List.getElem?_set_ne (fun he => hj he.symm)] at h2
        exact h2
    exact hinv.weatherOk hsq
  · intro j rD rDT rW rWT hj
    rcases getElem?_set_inv hlen hj with ⟨rfl, hv⟩ | ⟨hne, hold⟩
    · simp at hv
    · exact absurd (huniq j _ hold (Or.inr (Or.inl rfl))) hne
  · intro j rD rDT rW rWT hj
    rcases getElem?_set_inv hlen hj with ⟨rfl, hv⟩ | ⟨hne, hold⟩
    · simp at hv
    · exact absurd (huniq j _ hold (Or.inr (Or.inr (Or.inl rfl)))) hne
  · intro j rD rDT rW rWT hj
    rcases getElem?_set_inv hlen hj with ⟨rfl, hv⟩ | ⟨hne, hold⟩
    · simp at hv
    · exact absurd (huniq j _ hold (Or.inr (Or.inr (Or.inr (Or.inl rfl))))) hne
  · intro j rD rDT rW rWT hj
    rcases getElem?_set_inv hlen hj with ⟨rfl, hv⟩ | ⟨hne, hold⟩
    · simp at hv
    · exact absurd (huniq j _ hold (Or.inr (Or.inr (Or.inr (Or.inr rfl))))) hne
  · intro j rD rDT rW rWT hj
    rcases getElem?_set_inv hlen hj with ⟨rfl, hv⟩ | ⟨hne, hold⟩
    · simp at hv
    · exact hinv.readerDone j rD rDT rW rWT hold

/-- Preservation: a nest writer releases the mutex, completing its
replace. -/
theorem inv_step_nestUnlock {s : SysState} {i : Nat} {a : ThermostatData}
    {t : Nat} (hinv : Inv s)
    (hget : s.threads[i]? = some (Thread.nestWriter a t WriterPC.wroteTime)) :
    Inv { s with
      lockOwner := none
      nestHistory := s.nestHistory ++ [(a, t)]
      threads := s.threads.set i (Thread.nestWriter a t WriterPC.done) } := by
  have hlen : i < s.threads.length := getElem?_some_lt hget
  have hciOld : (Thread.nestWriter a t WriterPC.wroteTime).inCrit :=
    Or.inr (Or.inr rfl)
  have huniq : ∀ (j : Nat) (th : Thread), s.threads[j]? = some th →
      th.inCrit → j = i := fun j th hj hc => crit_unique hinv hget hj hciOld hc
  refine ⟨?_, ?_, ?_, ?_, ?_, ?_, ?_, ?_, ?_, ?_, ?_, ?_⟩
  · intro j th hj hc
    rcases getElem?_set_inv hlen hj with ⟨rfl, rfl⟩ | ⟨hne, hold⟩
    · simp [Thread.inCrit] at hc
    · exact absurd (huniq j th hold hc) hne
  · intro j a2 t2 hj
    rcases getElem?_set_inv hlen hj with ⟨rfl, hv⟩ | ⟨hne, hold⟩
    · simp at hv
    · exact absurd (huniq j _ hold (Or.inr (Or.inl rfl))) hne
  · intro j a2 t2 hj
    rcases getElem?_set_inv hlen hj with ⟨rfl, hv⟩ | ⟨hne, hold⟩
    · simp at hv
    · exact absurd (huniq j _ hold (Or.inr (Or.inr rfl))) hne
  · intro _
    obtain ⟨ha, ht⟩ := hinv.nestMidTime i a t hget
    show (s.currentData, s.currentDataTime) ∈
      (zeroThermostatData, 0) :: (s.nestHistory ++ [(a, t)])
    rw [ha, ht]
    exact List.mem_cons_of_mem _ (List.mem_append_right _ (List.mem_singleton_self _))
  · intro j a2 t2 hj
    rcases getElem?_set_inv hlen hj with ⟨rfl, hv⟩ | ⟨hne, hold⟩
    · simp at hv
    · exact hinv.weatherMidData j a2 t2 hold
  · intro j a2 t2 hj
    rcases getElem?_set_inv hlen hj with ⟨rfl, hv⟩ | ⟨hne, hold⟩
    · simp at hv
    · exact hinv.weatherMidTime j a2 t2 hold
  · intro hq2
    have hsq : weatherQuiet s.threads := by
      intro j a2 t2
      by_cases hj : j = i
      · subst hj
        simp [hget]
      · have h2 := hq2 j a2 t2
        rw [List.getElem?_set_ne (fun he => hj he.symm)] at h2
        exact h2
    exact hinv.weatherOk hsq
  · intro j rD rDT rW rWT hj
    rcases getElem?_set_inv hlen hj with ⟨rfl, hv⟩ | ⟨hne, hold⟩
    · simp at hv
    · exact absurd (huniq j _ hold (Or.inr (Or.inl rfl))) hne
  · intro j rD rDT rW rWT hj
    rcases getElem?_set_inv hlen hj with ⟨rfl, hv⟩ | ⟨hne, hold⟩
    · simp at hv
    · exact absurd (huniq j _ hold (Or.inr (Or.inr (Or.inl rfl)))) hne
  · intro j rD rDT rW rWT hj
    rcases getElem?_set_inv hlen hj with ⟨rfl, hv⟩ | ⟨hne, hold⟩
    · simp at hv
    · exact absurd (huniq j _ hold (Or.inr (Or.inr (Or.inr (Or.inl rfl))))) hne
  · intro j rD rDT rW rWT hj
    rcases getElem?_set_inv hlen hj with ⟨rfl, hv⟩ | ⟨hne, hold⟩
    · simp at hv
    · exact absurd (huniq j _ hold (Or.inr (Or.inr (Or.inr (Or.inr rfl))))) hne
  · intro j rD rDT rW rWT hj
    rcases getElem?_set_inv hlen hj with ⟨rfl, hv⟩ | ⟨hne, hold⟩
    · simp at hv
    · obtain ⟨h1, h2⟩ := hinv.readerDone j rD rDT rW rWT hold
      exact ⟨mem_cons_append h1, h2⟩

end Conc

namespace Conc

/-- Preservation: a weather writer acquires the mutex. -/
theorem inv_step_weatherLock {s : SysState} {i : Nat} {a : OwmWeatherMain}
    {t : Nat} (hinv : Inv s)
    (hget : s.threads[i]? = some (Thread.weatherWriter a t WriterPC.start))
    (hfree : s.lockOwner = none) :
    Inv { s with
      lockOwner := some i
      threads := s.threads.set i (Thread.weatherWriter a t WriterPC.locked) } := by
  have hlen : i < s.threads.length := getElem?_some_lt hget
  have hnocrit : ∀ (j : Nat) (th : Thread), s.threads[j]? = some th → ¬ th.inCrit := by
    intro j th hj hc
    have h1 := hinv.ownerCrit j th hj hc
    rw [hfree] at h1
    cases h1
  refine ⟨?_, ?_, ?_, ?_, ?_, ?_, ?_, ?_, ?_, ?_, ?_, ?_⟩
  · intro j th hj hc
    rcases getElem?_set_inv hlen hj with ⟨rfl, rfl⟩ | ⟨hne, hold⟩
    · rfl
    · exact absurd hc (hnocrit j th hold)
  · intro j a2 t2 hj
    rcases getElem?_set_inv hlen hj with ⟨rfl, hv⟩ | ⟨hne, hold⟩
    · simp at hv
    · exact hinv.nestMidData j a2 t2 hold
  · intro j a2 t2 hj
    rcases getElem?_set_inv hlen hj with ⟨rfl, hv⟩ | ⟨hne, hold⟩
    · simp at hv
    · exact hinv.nestMidTime j a2 t2 hold
  · intro hq2
    have hsq : nestQuiet s.threads := by
      intro j a2 t2
      by_cases hj : j = i
      · subst hj
        simp [hget]
      · have h2 := hq2 j a2 t2
        rw [List.getElem?_set_ne (fun he => hj he.symm)] at h2
        exact h2
    exact hinv.nestOk hsq
  · intro j a2 t2 hj
    rcases getElem?_set_inv hlen hj with ⟨rfl, hv⟩ | ⟨hne, hold⟩
    · simp at hv
    · exact hinv.weatherMidData j a2 t2 hold
  · intro j a2 t2 hj
    rcases getElem?_set_inv hlen hj with ⟨rfl, hv⟩ | ⟨hne, hold⟩
    · simp at hv
    · exact hinv.weatherMidTime j a2 t2 hold
  · intro hq2
    have hsq : weatherQuiet s.threads := by
      intro j a2 t2
      by_cases hj : j = i
      · subst hj
        simp [hget]
      · have h2 := hq2 j a2 t2
        rw [List.getElem?_set_ne (fun he => hj he.symm)] at h2
        exact h2
    exact hinv.weatherOk hsq
  · intro j rD rDT rW rWT hj
    rcases getElem?_set_inv hlen hj with ⟨rfl, hv⟩ | ⟨hne, hold⟩
    · simp at hv
    · exact hinv.readerD j rD rDT rW rWT hold
  · intro j rD rDT rW rWT hj
    rcases getElem?_set_inv hlen hj with ⟨rfl, hv⟩ | ⟨hne, hold⟩
    · simp at hv
    · exact hinv.readerDT j rD rDT rW rWT hold
  · intro j rD rDT rW rWT hj
    rcases getElem?_set_inv hlen hj with ⟨rfl, hv⟩ | ⟨hne, hold⟩
    · simp at hv
    · exact hinv.readerW j rD rDT rW rWT hold
  · intro j rD rDT rW rWT hj
    rcases getElem?_set_inv hlen hj with ⟨rfl, hv⟩ | ⟨hne, hold⟩
    · simp at hv
    · exact hinv.readerWT j rD rDT rW rWT hold
  · intro j rD rDT rW rWT hj
    rcases getElem?_set_inv hlen hj with ⟨rfl, hv⟩ | ⟨hne, hold⟩
    · simp at hv
    · exact hinv.readerDone j rD rDT rW rWT hold

/-- Preservation: a weather writer stores its Reading
(`currentWeather = result.WeatherMain`). -/
theorem inv_step_weatherWriteData {s : SysState} {i : Nat} {a : OwmWeatherMain}
    {t : Nat} (hinv : Inv s)
    (hget : s.threads[i]? = some (Thread.weatherWriter a t WriterPC.locked)) :
    Inv { s with
      currentWeather := a
      threads := s.threads.set i (Thread.weatherWriter a t WriterPC.wroteData) } := by
  have hlen : i < s.threads.length := getElem?_some_lt hget
  have hciOld : (Thread.weatherWriter a t WriterPC.locked).inCrit := Or.inl rfl
  have hownI : s.lockOwner = some i := hinv.ownerCrit i _ hget hciOld
  have huniq : ∀ (j : Nat) (th : Thread), s.threads[j]? = some th →
      th.inCrit → j = i := fun j th hj hc => crit_unique hinv hget hj hciOld hc
  refine ⟨?_, ?_, ?_, ?_, ?_, ?_, ?_, ?_, ?_, ?_, ?_, ?_⟩
  · intro j th hj hc
    rcases getElem?_set_inv hlen hj with ⟨rfl, rfl⟩ | ⟨hne, hold⟩
    · exact hownI
    · exact hinv.ownerCrit j th hold hc
  · intro j a2 t2 hj
    rcases getElem?_set_inv hlen hj with ⟨rfl, hv⟩ | ⟨hne, hold⟩
    · simp at hv
    · exact hinv.nestMidData j a2 t2 hold
  · intro j a2 t2 hj
    rcases getElem?_set_inv hlen hj with ⟨rfl, hv⟩ | ⟨hne, hold⟩
    · simp at hv
    · exact hinv.nestMidTime j a2 t2 hold
  · intro hq2
    have hsq : nestQuiet s.threads := by
      intro j a2 t2
      by_cases hj : j = i
      · subst hj
        simp [hget]
      · have h2 := hq2 j a2 t2
        rw [List.getElem?_set_ne (fun he => hj he.symm)] at h2
        exact h2
    exact hinv.nestOk hsq
  · intro j a2 t2 hj
    rcases getElem?_set_inv hlen hj with ⟨rfl, hv⟩ | ⟨hne, hold⟩
    · simp at hv
      exact hv.1.symm
    · exact absurd (huniq j _ hold (Or.inr (Or.inl rfl))) hne
  · intro j a2 t2 hj
    rcases getElem?_set_inv hlen hj with ⟨rfl, hv⟩ | ⟨hne, hold⟩
    · simp at hv
    · exact absurd (huniq j _ hold (Or.inr (Or.inr rfl))) hne
  · intro hq2
    exfalso
    have h2 := (hq2 i a t).1
    rw [List.getElem?_set_eq hlen] at h2
    exact h2 rfl
  · intro j rD rDT rW rWT hj
    rcases getElem?_set_inv hlen hj with ⟨rfl, hv⟩ | ⟨hne, hold⟩
    · simp at hv
    · exact absurd (huniq j _ hold (Or.inr (Or.inl rfl))) hne
  · intro j rD rDT rW rWT hj
    rcases getElem?_set_inv hlen hj with ⟨rfl, hv⟩ | ⟨hne, hold⟩
    · simp at hv
    · exact absurd (huniq j _ hold (Or.inr (Or.inr (Or.inl rfl)))) hne
  · intro j rD rDT rW rWT hj
    rcases getElem?_set_inv hlen hj with ⟨rfl, hv⟩ | ⟨hne, hold⟩
    · simp at hv
    · exact absurd (huniq j _ hold (Or.inr (Or.inr (Or.inr (Or.inl rfl))))) hne
  · intro j rD rDT rW rWT hj
    rcases getElem?_set_inv hlen hj with ⟨rfl, hv⟩ | ⟨hne, hold⟩
    · simp at hv
    · exact absurd (huniq j _ hold (Or.inr (Or.inr (Or.inr (Or.inr rfl))))) hne
  · intro j rD rDT rW rWT hj
    rcases getElem?_set_inv hlen hj with ⟨rfl, hv⟩ | ⟨hne, hold⟩
    · simp at hv
    · exact hinv.readerDone j rD rDT rW rWT hold

/-- Preservation: a weather writer stores its timestamp
(`currentWeatherTime = time.Now()`). -/
theorem inv_step_weatherWriteTime {s : SysState} {i : Nat} {a : OwmWeatherMain}
    {t : Nat} (hinv : Inv s)
    (hget : s.threads[i]? = some (Thread.weatherWriter a t WriterPC.wroteData)) :
    Inv { s with
      currentWeatherTime := t
      threads := s.threads.set i (Thread.weatherWriter a t WriterPC.wroteTime) } := by
  have hlen : i < s.threads.length := getElem?_some_lt hget
  have hciOld : (Thread.weatherWriter a t WriterPC.wroteData).inCrit :=
    Or.inr (Or.inl rfl)
  have hownI : s.lockOwner = some i := hinv.ownerCrit i _ hget hciOld
  have huniq : ∀ (j : Nat) (th : Thread), s.threads[j]? = some th →
      th.inCrit → j = i := fun j th hj hc => crit_unique hinv hget hj hciOld hc
  refine ⟨?_, ?_, ?_, ?_, ?_, ?_, ?_, ?_, ?_, ?_, ?_, ?_⟩
  · intro j th hj hc
    rcases getElem?_set_inv hlen hj with ⟨rfl, rfl⟩ | ⟨hne, hold⟩
    · exact hownI
    · exact hinv.ownerCrit j th hold hc
  · intro j a2 t2 hj
    rcases getElem?_set_inv hlen hj with ⟨rfl, hv⟩ | ⟨hne, hold⟩
    · simp at hv
    · exact hinv.nestMidData j a2 t2 hold
  · intro j a2 t2 hj
    rcases getElem?_set_inv hlen hj with ⟨rfl, hv⟩ | ⟨hne, hold⟩
    · simp at hv
    · exact hinv.nestMidTime j a2 t2 hold
  · intro hq2
    have hsq : nestQuiet s.threads := by
      intro j a2 t2
      by_cases hj : j = i
      · subst hj
        simp [hget]
      · have h2 := hq2 j a2 t2
        rw [List.getElem?_set_ne (fun he => hj he.symm)] at h2
        exact h2
    exact hinv.nestOk hsq
  · intro j a2 t2 hj
    rcases getElem?_set_inv hlen hj with ⟨rfl, hv⟩ | ⟨hne, hold⟩
    · simp at hv
    · exact absurd (huniq j _ hold (Or.inr (Or.inl rfl))) hne
  · intro j a2 t2 hj
    rcases getElem?_set_inv hlen hj with ⟨rfl, hv⟩ | ⟨hne, hold⟩
    · simp at hv
      constructor
      · rw [hv.1]
        exact hinv.weatherMidData _ a t hget
      · rw [hv.2]
    · exact absurd (huniq j _ hold (Or.inr (Or.inr rfl))) hne
  · intro hq2
    exfalso
    have h2 := (hq2 i a t).2
    rw [List.getElem?_set_eq hlen] at h2
    exact h2 rfl
  · intro j rD rDT rW rWT hj
    rcases getElem?_set_inv hlen hj with ⟨rfl, hv⟩ | ⟨hne, hold⟩
    · simp at hv
    · exact absurd (huniq j _ hold (Or.inr (Or.inl rfl))) hne
  · intro j rD rDT rW rWT hj
    rcases getElem?_set_inv hlen hj with ⟨rfl, hv⟩ | ⟨hne, hold⟩
    · simp at hv
    · exact absurd (huniq j _ hold (Or.inr (Or.inr (Or.inl rfl)))) hne
  · intro j rD rDT rW rWT hj
    rcases getElem?_set_inv hlen hj with ⟨rfl, hv⟩ | ⟨hne, hold⟩
    · simp at hv
    · exact absurd (huniq j _ hold (Or.inr (Or.inr (Or.inr (Or.inl rfl))))) hne
  · intro j rD rDT rW rWT hj
    rcases getElem?_set_inv hlen hj with ⟨rfl, hv⟩ | ⟨hne, hold⟩
    · simp at hv
    · exact absurd (huniq j _ hold (Or.inr (Or.inr (Or.inr (Or.inr rfl))))) hne
  · intro j rD rDT rW rWT hj
    rcases getElem?_set_inv hlen hj with ⟨rfl, hv⟩ | ⟨hne, hold⟩
    · simp at hv
    · exact hinv.readerDone j rD rDT rW rWT hold

/-- Preservation: a weather writer releases the mutex, completing its
replace. -/
theorem inv_step_weatherUnlock {s : SysState} {i : Nat} {a : OwmWeatherMain}
    {t : Nat} (hinv : Inv s)
    (hget : s.threads[i]? = some (Thread.weatherWriter a t WriterPC.wroteTime)) :
    Inv { s with
      lockOwner := none
      weatherHistory := s.weatherHistory ++ [(a, t)]
      threads := s.threads.set i (Thread.weatherWriter a t WriterPC.done) } := by
  have hlen : i < s.threads.length := getElem?_some_lt hget
  have hciOld : (Thread.weatherWriter a t WriterPC.wroteTime).inCrit :=
    Or.inr (Or.inr rfl)
  have huniq : ∀ (j : Nat) (th : Thread), s.threads[j]? = some th →
      th.inCrit → j = i := fun j th hj hc => crit_unique hinv hget hj hciOld hc
  refine ⟨?_, ?_, ?_, ?_, ?_, ?_, ?_, ?_, ?_, ?_, ?_, ?_⟩
  · intro j th hj hc
    rcases getElem?_set_inv hlen hj with ⟨rfl, rfl⟩ | ⟨hne, hold⟩
    · simp [Thread.inCrit] at hc
    · exact absurd (huniq j th hold hc) hne
  · intro j a2 t2 hj
    rcases getElem?_set_inv hlen hj with ⟨rfl, hv⟩ | ⟨hne, hold⟩
    · simp at hv
    · exact hinv.nestMidData j a2 t2 hold
  · intro j a2 t2 hj
    rcases getElem?_set_inv hlen hj with ⟨rfl, hv⟩ | ⟨hne, hold⟩
    · simp at hv
    · exact hinv.nestMidTime j a2 t2 hold
  · intro hq2
    have hsq : nestQuiet s.threads := by
      intro j a2 t2
      by_cases hj : j = i
      · subst hj
        simp [hget]
      · have h2 := hq2 j a2 t2
        rw [List.getElem?_set_ne (fun he => hj he.symm)] at h2
        exact h2
    exact hinv.nestOk hsq
  · intro j a2 t2 hj
    rcases getElem?_set_inv hlen hj with ⟨rfl, hv⟩ | ⟨hne, hold⟩
    · simp at hv
    · exact absurd (huniq j _ hold (Or.inr (Or.inl rfl))) hne
  · intro j a2 t2 hj
    rcases getElem?_set_inv hlen hj with ⟨rfl, hv⟩ | ⟨hne, hold⟩
    · simp at hv
    · exact absurd (huniq j _ hold (Or.inr (Or.inr rfl))) hne
  · intro _
    obtain ⟨ha, ht⟩ := hinv.weatherMidTime i a t hget
    show (s.currentWeather, s.currentWeatherTime) ∈
      (zeroOwmWeatherMain, 0) :: (s.weatherHistory ++ [(a, t)])
    rw [ha, ht]
    exact List.mem_cons_of_mem _ (List.mem_append_right _ (List.mem_singleton_self _))
  · intro j rD rDT rW rWT hj
    rcases getElem?_set_inv hlen hj with ⟨rfl, hv⟩ | ⟨hne, hold⟩
    · simp at hv
    · exact absurd (huniq j _ hold (Or.inr (Or.inl rfl))) hne
  · intro j rD rDT rW rWT hj
    rcases getElem?_set_inv hlen hj with ⟨rfl, hv⟩ | ⟨hne, hold⟩
    · simp at hv
    · exact absurd (huniq j _ hold (Or.inr (Or.inr (Or.inl rfl)))) hne
  · intro j rD rDT rW rWT hj
    rcases getElem?_set_inv hlen hj with ⟨rfl, hv⟩ | ⟨hne, hold⟩
    · simp at hv
    · exact absurd (huniq j _ hold (Or.inr (Or.inr (Or.inr (Or.inl rfl))))) hne
  · intro j rD rDT rW rWT hj
    rcases getElem?_set_inv hlen hj with ⟨rfl, hv⟩ | ⟨hne, hold⟩
    · simp at hv
    · exact absurd (huniq j _ hold (Or.inr (Or.inr (Or.inr (Or.inr rfl))))) hne
  · intro j rD rDT rW rWT hj
    rcases getElem?_set_inv hlen hj with ⟨rfl, hv⟩ | ⟨hne, hold⟩
    · simp at hv
    · obtain ⟨h1, h2⟩ := hinv.readerDone j rD rDT rW rWT hold
      exact ⟨h1, mem_cons_append h2⟩

end Conc

namespace Conc

/-- Preservation: a `/data` handler acquires the mutex. -/
theorem inv_step_readerLock {s : SysState} {i : Nat} {rD : ThermostatData}
    {rDT : Nat} {rW : OwmWeatherMain} {rWT : Nat} (hinv : Inv s)
    (hget : s.threads[i]? = some (Thread.reader ReaderPC.start rD rDT rW rWT))
    (hfree : s.lockOwner = none) :
    Inv { s with
      lockOwner := some i
      threads := s.threads.set i (Thread.reader ReaderPC.locked rD rDT rW rWT) } := by
  have hlen : i < s.threads.length := getElem?_some_lt hget
  have hnocrit : ∀ (j : Nat) (th : Thread), s.threads[j]? = some th → ¬ th.inCrit := by
    intro j th hj hc
    have h1 := hinv.ownerCrit j th hj hc
    rw [hfree] at h1
    cases h1
  refine ⟨?_, ?_, ?_, ?_, ?_, ?_, ?_, ?_, ?_, ?_, ?_, ?_⟩
  · intro j th hj hc
    rcases getElem?_set_inv hlen hj with ⟨rfl, rfl⟩ | ⟨hne, hold⟩
    · rfl
    · exact absurd hc (hnocrit j th hold)
  · intro j a2 t2 hj
    rcases getElem?_set_inv hlen hj with ⟨rfl, hv⟩ | ⟨hne, hold⟩
    · simp at hv
    · exact hinv.nestMidData j a2 t2 hold
  · intro j a2 t2 hj
    rcases getElem?_set_inv hlen hj with ⟨rfl, hv⟩ | ⟨hne, hold⟩
    · simp at hv
    · exact hinv.nestMidTime j a2 t2 hold
  · intro hq2
    have hsq : nestQuiet s.threads := by
      intro j a2 t2
      by_cases hj : j = i
      · subst hj
        simp [hget]
      · have h2 := hq2 j a2 t2
        rw [List.getElem?_set_ne (fun he => hj he.symm)] at h2
        exact h2
    exact hinv.nestOk hsq
  · intro j a2 t2 hj
    rcases getElem?_set_inv hlen hj with ⟨rfl, hv⟩ | ⟨hne, hold⟩
    · simp at hv
    · exact hinv.weatherMidData j a2 t2 hold
  · intro j a2 t2 hj
    rcases getElem?_set_inv hlen hj with ⟨rfl, hv⟩ | ⟨hne, hold⟩
    · simp at hv
    · exact hinv.weatherMidTime j a2 t2 hold
  · intro hq2
    have hsq : weatherQuiet s.threads := by
      intro j a2 t2
      by_cases hj : j = i
      · subst hj
        simp [hget]
      · have h2 := hq2 j a2 t2
        rw [List.getElem?_set_ne (fun he => hj he.symm)] at h2
        exact h2
    exact hinv.weatherOk hsq
  · intro j rD2 rDT2 rW2 rWT2 hj
    rcases getElem?_set_inv hlen hj with ⟨rfl, hv⟩ | ⟨hne, hold⟩
    · simp at hv
    · exact hinv.readerD j rD2 rDT2 rW2 rWT2 hold
  · intro j rD2 rDT2 rW2 rWT2 hj
    rcases getElem?_set_inv hlen hj with ⟨rfl, hv⟩ | ⟨hne, hold⟩
    · simp at hv
    · exact hinv.readerDT j rD2 rDT2 rW2 rWT2 hold
  · intro j rD2 rDT2 rW2 rWT2 hj
    rcases getElem?_set_inv hlen hj with ⟨rfl, hv⟩ | ⟨hne, hold⟩
    · simp at hv
    · exact hinv.readerW j rD2 rDT2 rW2 rWT2 hold
  · intro j rD2 rDT2 rW2 rWT2 hj
    rcases getElem?_set_inv hlen hj with ⟨rfl, hv⟩ | ⟨hne, hold⟩
    · simp at hv
    · exact hinv.readerWT j rD2 rDT2 rW2 rWT2 hold
  · intro j rD2 rDT2 rW2 rWT2 hj
    rcases getElem?_set_inv hlen hj with ⟨rfl, hv⟩ | ⟨hne, hold⟩
    · simp at hv
    · exact hinv.readerDone j rD2 rDT2 rW2 rWT2 hold

/-- Preservation: a reader copies `currentData` into its local snapshot. -/
theorem inv_step_readerReadData {s : SysState} {i : Nat} {rD : ThermostatData}
    {rDT : Nat} {rW : OwmWeatherMain} {rWT : Nat} (hinv : Inv s)
    (hget : s.threads[i]? = some (Thread.reader ReaderPC.locked rD rDT rW rWT)) :
    Inv { s with
      threads := s.threads.set i
        (Thread.reader ReaderPC.gotData s.currentData rDT rW rWT) } := by
  have hlen : i < s.threads.length := getElem?_some_lt hget
  have hciOld : (Thread.reader ReaderPC.locked rD rDT rW rWT).inCrit := Or.inl rfl
  have hownI : s.lockOwner = some i := hinv.ownerCrit i _ hget hciOld
  refine ⟨?_, ?_, ?_, ?_, ?_, ?_, ?_, ?_, ?_, ?_, ?_, ?_⟩
  · intro j th hj hc
    rcases getElem?_set_inv hlen hj with ⟨rfl, rfl⟩ | ⟨hne, hold⟩
    · exact hownI
    · exact hinv.ownerCrit j th hold hc
  · intro j a2 t2 hj
    rcases getElem?_set_inv hlen hj with ⟨rfl, hv⟩ | ⟨hne, hold⟩
    · simp at hv
    · exact hinv.nestMidData j a2 t2 hold
  · intro j a2 t2 hj
    rcases getElem?_set_inv hlen hj with ⟨rfl, hv⟩ | ⟨hne, hold⟩
    · simp at hv
    · exact hinv.nestMidTime j a2 t2 hold
  · intro hq2
    have hsq : nestQuiet s.threads := by
      intro j a2 t2
      by_cases hj : j = i
      · subst hj
        simp [hget]
      · have h2 := hq2 j a2 t2
        rw [List.getElem?_set_ne (fun he => hj he.symm)] at h2
        exact h2
    exact hinv.nestOk hsq
  · intro j a2 t2 hj
    rcases getElem?_set_inv hlen hj with ⟨rfl, hv⟩ | ⟨hne, hold⟩
    · simp at hv
    · exact hinv.weatherMidData j a2 t2 hold
  · intro j a2 t2 hj
    rcases getElem?_set_inv hlen hj with ⟨rfl, hv⟩ | ⟨hne, hold⟩
    · simp at hv
    · exact hinv.weatherMidTime j a2 t2 hold
  · intro hq2
    have hsq : weatherQuiet s.threads := by
      intro j a2 t2
      by_cases hj : j = i
      · subst hj
        simp [hget]
      · have h2 := hq2 j a2 t2
        rw [List.getElem?_set_ne (fun he => hj he.symm)] at h2
        exact h2
    exact hinv.weatherOk hsq
  · intro j rD2 rDT2 rW2 rWT2 hj
    rcases getElem?_set_inv hlen hj with ⟨rfl, hv⟩ | ⟨hne, hold⟩
    · simp at hv
      exact hv.1
    · exact hinv.readerD j rD2 rDT2 rW2 rWT2 hold
  · intro j rD2 rDT2 rW2 rWT2 hj
    rcases getElem?_set_inv hlen hj with ⟨rfl, hv⟩ | ⟨hne, hold⟩
    · simp at hv
    · exact hinv.readerDT j rD2 rDT2 rW2 rWT2 hold
  · intro j rD2 rDT2 rW2 rWT2 hj
    rcases getElem?_set_inv hlen hj with ⟨rfl, hv⟩ | ⟨hne, hold⟩
    · simp at hv
    · exact hinv.readerW j rD2 rDT2 rW2 rWT2 hold
  · intro j rD2 rDT2 rW2 rWT2 hj
    rcases getElem?_set_inv hlen hj with ⟨rfl, hv⟩ | ⟨hne, hold⟩
    · simp at hv
    · exact hinv.readerWT j rD2 rDT2 rW2 rWT2 hold
  · intro j rD2 rDT2 rW2 rWT2 hj
    rcases getElem?_set_inv hlen hj with ⟨rfl, hv⟩ | ⟨hne, hold⟩
    · simp at hv
    · exact hinv.readerDone j rD2 rDT2 rW2 rWT2 hold

end Conc

namespace Conc

/-- Preservation: a reader copies `currentDataTime`. -/
theorem inv_step_readerReadDataTime {s : SysState} {i : Nat}
    {rD : ThermostatData} {rDT : Nat} {rW : OwmWeatherMain} {rWT : Nat}
    (hinv : Inv s)
    (hget : s.threads[i]? = some (Thread.reader ReaderPC.gotData rD rDT rW rWT)) :
    Inv { s with
      threads := s.threads.set i
        (Thread.reader ReaderPC.gotDataTime rD s.currentDataTime rW rWT) } := by
  have hlen : i < s.threads.length := getElem?_some_lt hget
  have hciOld : (Thread.reader ReaderPC.gotData rD rDT rW rWT).inCrit :=
    Or.inr (Or.inl rfl)
  have hownI : s.lockOwner = some i := hinv.ownerCrit i _ hget hciOld
  refine ⟨?_, ?_, ?_, ?_, ?_, ?_, ?_, ?_, ?_, ?_, ?_, ?_⟩
  · intro j th hj hc
    rcases getElem?_set_inv hlen hj with ⟨rfl, rfl⟩ | ⟨hne, hold⟩
    · exact hownI
    · exact hinv.ownerCrit j th hold hc
  · intro j a2 t2 hj
    rcases getElem?_set_inv hlen hj with ⟨rfl, hv⟩ | ⟨hne, hold⟩
    · simp at hv
    · exact hinv.nestMidData j a2 t2 hold
  · intro j a2 t2 hj
    rcases getElem?_set_inv hlen hj with ⟨rfl, hv⟩ | ⟨hne, hold⟩
    · simp at hv
    · exact hinv.nestMidTime j a2 t2 hold
  · intro hq2
    have hsq : nestQuiet s.threads := by
      intro j a2 t2
      by_cases hj : j = i
      · subst hj
        simp [hget]
      · have h2 := hq2 j a2 t2
        rw [List.getElem?_set_ne (fun he => hj he.symm)] at h2
        exact h2
    exact hinv.nestOk hsq
  · intro j a2 t2 hj
    rcases getElem?_set_inv hlen hj with ⟨rfl, hv⟩ | ⟨hne, hold⟩
    · simp at hv
    · exact hinv.weatherMidData j a2 t2 hold
  · intro j a2 t2 hj
    rcases getElem?_set_inv hlen hj with ⟨rfl, hv⟩ | ⟨hne, hold⟩
    · simp at hv
    · exact hinv.weatherMidTime j a2 t2 hold
  · intro hq2
    have hsq : weatherQuiet s.threads := by
      intro j a2 t2
      by_cases hj : j = i
      · subst hj
        simp [hget]
      · have h2 := hq2 j a2 t2
        rw [List.getElem?_set_ne (fun he => hj he.symm)] at h2
        exact h2
    exact hinv.weatherOk hsq
  · intro j rD2 rDT2 rW2 rWT2 hj
    rcases getElem?_set_inv hlen hj with ⟨rfl, hv⟩ | ⟨hne, hold⟩
    · simp at hv
    · exact hinv.readerD j rD2 rDT2 rW2 rWT2 hold
  · intro j rD2 rDT2 rW2 rWT2 hj
    rcases getElem?_set_inv hlen hj with ⟨rfl, hv⟩ | ⟨hne, hold⟩
    · simp at hv
      constructor
      · rw [hv.1]
        exact hinv.readerD _ rD rDT rW rWT hget
      · rw [hv.2.1]
    · exact hinv.readerDT j rD2 rDT2 rW2 rWT2 hold
  · intro j rD2 rDT2 rW2 rWT2 hj
    rcases getElem?_set_inv hlen hj with ⟨rfl, hv⟩ | ⟨hne, hold⟩
    · simp at hv
    · exact hinv.readerW j rD2 rDT2 rW2 rWT2 hold
  · intro j rD2 rDT2 rW2 rWT2 hj
    rcases getElem?_set_inv hlen hj with ⟨rfl, hv⟩ | ⟨hne, hold⟩
    · simp at hv
    · exact hinv.readerWT j rD2 rDT2 rW2 rWT2 hold
  · intro j rD2 rDT2 rW2 rWT2 hj
    rcases getElem?_set_inv hlen hj with ⟨rfl, hv⟩ | ⟨hne, hold⟩
    · simp at hv
    · exact hinv.readerDone j rD2 rDT2 rW2 rWT2 hold

/-- Preservation: a reader copies `currentWeather`. -/
theorem inv_step_readerReadWeather {s : SysState} {i : Nat}
    {rD : ThermostatData} {rDT : Nat} {rW : OwmWeatherMain} {rWT : Nat}
    (hinv : Inv s)
    (hget : s.threads[i]? = some (Thread.reader ReaderPC.gotDataTime rD rDT rW rWT)) :
    Inv { s with
      threads := s.threads.set i
        (Thread.reader ReaderPC.gotWeather rD rDT s.currentWeather rWT) } := by
  have hlen : i < s.threads.length := getElem?_some_lt hget
  have hciOld : (Thread.reader ReaderPC.gotDataTime rD rDT rW rWT).inCrit :=
    Or.inr (Or.inr (Or.inl rfl))
  have hownI : s.lockOwner = some i := hinv.ownerCrit i _ hget hciOld
  refine ⟨?_, ?_, ?_, ?_, ?_, ?_, ?_, ?_, ?_, ?_, ?_, ?_⟩
  · intro j th hj hc
    rcases getElem?_set_inv hlen hj with ⟨rfl, rfl⟩ | ⟨hne, hold⟩
    · exact hownI
    · exact hinv.ownerCrit j th hold hc
  · intro j a2 t2 hj
    rcases getElem?_set_inv hlen hj with ⟨rfl, hv⟩ | ⟨hne, hold⟩
    · simp at hv
    · exact hinv.nestMidData j a2 t2 hold
  · intro j a2 t2 hj
    rcases getElem?_set_inv hlen hj with ⟨rfl, hv⟩ | ⟨hne, hold⟩
    · simp at hv
    · exact hinv.nestMidTime j a2 t2 hold
  · intro hq2
    have hsq : nestQuiet s.threads := by
      intro j a2 t2
      by_cases hj : j = i
      · subst hj
        simp [hget]
      · have h2 := hq2 j a2 t2
        rw [List.getElem?_set_ne (fun he => hj he.symm)] at h2
        exact h2
    exact hinv.nestOk hsq
  · intro j a2 t2 hj
    rcases getElem?_set_inv hlen hj with ⟨rfl, hv⟩ | ⟨hne, hold⟩
    · simp at hv
    · exact hinv.weatherMidData j a2 t2 hold
  · intro j a2 t2 hj
    rcases getElem?_set_inv hlen hj with ⟨rfl, hv⟩ | ⟨hne, hold⟩
    · simp at hv
    · exact hinv.weatherMidTime j a2 t2 hold
  · intro hq2
    have hsq : weatherQuiet s.threads := by
      intro j a2 t2
      by_cases hj : j = i
      · subst hj
        simp [hget]
      · have h2 := hq2 j a2 t2
        rw [List.getElem?_set_ne (fun he => hj he.symm)] at h2
        exact h2
    exact hinv.weatherOk hsq
  · intro j rD2 rDT2 rW2 rWT2 hj
    rcases getElem?_set_inv hlen hj with ⟨rfl, hv⟩ | ⟨hne, hold⟩
    · simp at hv
    · exact hinv.readerD j rD2 rDT2 rW2 rWT2 hold
  · intro j rD2 rDT2 rW2 rWT2 hj
    rcases getElem?_set_inv hlen hj with ⟨rfl, hv⟩ | ⟨hne, hold⟩
    · simp at hv
    · exact hinv.readerDT j rD2 rDT2 rW2 rWT2 hold
  · intro j rD2 rDT2 rW2 rWT2 hj
    rcases getElem?_set_inv hlen hj with ⟨rfl, hv⟩ | ⟨hne, hold⟩
    · simp at hv
      obtain ⟨hDT1, hDT2⟩ := hinv.readerDT _ rD rDT rW rWT hget
      refine ⟨?_, ?_, ?_⟩
      · rw [hv.1]
        exact hDT1
      · rw [hv.2.1]
        exact hDT2
      · rw [hv.2.2.1]
    · exact hinv.readerW j rD2 rDT2 rW2 rWT2 hold
  · intro j rD2 rDT2 rW2 rWT2 hj
    rcases getElem?_set_inv hlen hj with ⟨rfl, hv⟩ | ⟨hne, hold⟩
    · simp at hv
    · exact hinv.readerWT j rD2 rDT2 rW2 rWT2 hold
  · intro j rD2 rDT2 rW2 rWT2 hj
    rcases getElem?_set_inv hlen hj with ⟨rfl, hv⟩ | ⟨hne, hold⟩
    · simp at hv
    · exact hinv.readerDone j rD2 rDT2 rW2 rWT2 hold

/-- Preservation: a reader copies `currentWeatherTime`. -/
theorem inv_step_readerReadWeatherTime {s : SysState} {i : Nat}
    {rD : ThermostatData} {rDT : Nat} {rW : OwmWeatherMain} {rWT : Nat}
    (hinv : Inv s)
    (hget : s.threads[i]? = some (Thread.reader ReaderPC.gotWeather rD rDT rW rWT)) :
    Inv { s with
      threads := s.threads.set i
        (Thread.reader ReaderPC.gotWeatherTime rD rDT rW s.currentWeatherTime) } := by
  have hlen : i < s.threads.length := getElem?_some_lt hget
  have hciOld : (Thread.reader ReaderPC.gotWeather rD rDT rW rWT).inCrit :=
    Or.inr (Or.inr (Or.inr (Or.inl rfl)))
  have hownI : s.lockOwner = some i := hinv.ownerCrit i _ hget hciOld
  refine ⟨?_, ?_, ?_, ?_, ?_, ?_, ?_, ?_, ?_, ?_, ?_, ?_⟩
  · intro j th hj hc
    rcases getElem?_set_inv hlen hj with ⟨rfl, rfl⟩ | ⟨hne, hold⟩
    · exact hownI
    · exact hinv.ownerCrit j th hold hc
  · intro j a2 t2 hj
    rcases getElem?_set_inv hlen hj with ⟨rfl, hv⟩ | ⟨hne, hold⟩
    · simp at hv
    · exact hinv.nestMidData j a2 t2 hold
  · intro j a2 t2 hj
    rcases getElem?_set_inv hlen hj with ⟨rfl, hv⟩ | ⟨hne, hold⟩
    · simp at hv
    · exact hinv.nestMidTime j a2 t2 hold
  · intro hq2
    have hsq : nestQuiet s.threads := by
      intro j a2 t2
      by_cases hj : j = i
      · subst hj
        simp [hget]
      · have h2 := hq2 j a2 t2
        rw [List.getElem?_set_ne (fun he => hj he.symm)] at h2
        exact h2
    exact hinv.nestOk hsq
  · intro j a2 t2 hj
    rcases getElem?_set_inv hlen hj with ⟨rfl, hv⟩ | ⟨hne, hold⟩
    · simp at hv
    · exact hinv.weatherMidData j a2 t2 hold
  · intro j a2 t2 hj
    rcases getElem?_set_inv hlen hj with ⟨rfl, hv⟩ | ⟨hne, hold⟩
    · simp at hv
    · exact hinv.weatherMidTime j a2 t2 hold
  · intro hq2
    have hsq : weatherQuiet s.threads := by
      intro j a2 t2
      by_cases hj : j = i
      · subst hj
        simp [hget]
      · have h2 := hq2 j a2 t2
        rw [List.getElem?_set_ne (fun he => hj he.symm)] at h2
        exact h2
    exact hinv.weatherOk hsq
  · intro j rD2 rDT2 rW2 rWT2 hj
    rcases getElem?_set_inv hlen hj with ⟨rfl, hv⟩ | ⟨hne, hold⟩
    · simp at hv
    · exact hinv.readerD j rD2 rDT2 rW2 rWT2 hold
  · intro j rD2 rDT2 rW2 rWT2 hj
    rcases getElem?_set_inv hlen hj with ⟨rfl, hv⟩ | ⟨hne, hold⟩
    · simp at hv
    · exact hinv.readerDT j rD2 rDT2 rW2 rWT2 hold
  · intro j rD2 rDT2 rW2 rWT2 hj
    rcases getElem?_set_inv hlen hj with ⟨rfl, hv⟩ | ⟨hne, hold⟩
    · simp at hv
    · exact hinv.readerW j rD2 rDT2 rW2 rWT2 hold
  · intro j rD2 rDT2 rW2 rWT2 hj
    rcases getElem?_set_inv hlen hj with ⟨rfl, hv⟩ | ⟨hne, hold⟩
    · simp at hv
      obtain ⟨hW1, hW2, hW3⟩ := hinv.readerW _ rD rDT rW rWT hget
      refine ⟨?_, ?_, ?_, ?_⟩
      · rw [hv.1]
        exact hW1
      · rw [hv.2.1]
        exact hW2
      · rw [hv.2.2.1]
        exact hW3
      · rw [hv.2.2.2]
    · exact hinv.readerWT j rD2 rDT2 rW2 rWT2 hold
  · intro j rD2 rDT2 rW2 rWT2 hj
    rcases getElem?_set_inv hlen hj with ⟨rfl, hv⟩ | ⟨hne, hold⟩
    · simp at hv
    · exact hinv.readerDone j rD2 rDT2 rW2 rWT2 hold

/-- Preservation: a reader releases the mutex, completing its snapshot. -/
theorem inv_step_readerUnlock {s : SysState} {i : Nat}
    {rD : ThermostatData} {rDT : Nat} {rW : OwmWeatherMain} {rWT : Nat}
    (hinv : Inv s)
    (hget : s.threads[i]? = some (Thread.reader ReaderPC.gotWeatherTime rD rDT rW rWT)) :
    Inv { s with
      lockOwner := none
      threads := s.threads.set i (Thread.reader ReaderPC.done rD rDT rW rWT) } := by
  have hlen : i < s.threads.length := getElem?_some_lt hget
  have hciOld : (Thread.reader ReaderPC.gotWeatherTime rD rDT rW rWT).inCrit :=
    Or.inr (Or.inr (Or.inr (Or.inr rfl)))
  have huniq : ∀ (j : Nat) (th : Thread), s.threads[j]? = some th →
      th.inCrit → j = i := fun j th hj hc => crit_unique hinv hget hj hciOld hc
  have hnq : nestQuiet s.threads := by
    intro j2 a2 t2
    constructor
    · intro hc
      have hj2 := huniq j2 _ hc (Or.inr (Or.inl rfl))
      subst hj2
      rw [hget] at hc
      simp at hc
    · intro hc
      have hj2 := huniq j2 _ hc (Or.inr (Or.inr rfl))
      subst hj2
      rw [hget] at hc
      simp at hc
  have hwq : weatherQuiet s.threads := by
    intro j2 a2 t2
    constructor
    · intro hc
      have hj2 := huniq j2 _ hc (Or.inr (Or.inl rfl))
      subst hj2
      rw [hget] at hc
      simp at hc
    · intro hc
      have hj2 := huniq j2 _ hc (Or.inr (Or.inr rfl))
      subst hj2
      rw [hget] at hc
      simp at hc
  refine ⟨?_, ?_, ?_, ?_, ?_, ?_, ?_, ?_, ?_, ?_, ?_, ?_⟩
  · intro j th hj hc
    rcases getElem?_set_inv hlen hj with ⟨rfl, rfl⟩ | ⟨hne, hold⟩
    · simp [Thread.inCrit] at hc
    · exact absurd (huniq j th hold hc) hne
  · intro j a2 t2 hj
    rcases getElem?_set_inv hlen hj with ⟨rfl, hv⟩ | ⟨hne, hold⟩
    · simp at hv
    · exact hinv.nestMidData j a2 t2 hold
  · intro j a2 t2 hj
    rcases getElem?_set_inv hlen hj with ⟨rfl, hv⟩ | ⟨hne, hold⟩
    · simp at hv
    · exact hinv.nestMidTime j a2 t2 hold
  · intro _
    exact hinv.nestOk hnq
  · intro j a2 t2 hj
    rcases getElem?_set_inv hlen hj with ⟨rfl, hv⟩ | ⟨hne, hold⟩
    · simp at hv
    · exact hinv.weatherMidData j a2 t2 hold
  · intro j a2 t2 hj
    rcases getElem?_set_inv hlen hj with ⟨rfl, hv⟩ | ⟨hne, hold⟩
    · simp at hv
    · exact hinv.weatherMidTime j a2 t2 hold
  · intro _
    exact hinv.weatherOk hwq
  · intro j rD2 rDT2 rW2 rWT2 hj
    rcases getElem?_set_inv hlen hj with ⟨rfl, hv⟩ | ⟨hne, hold⟩
    · simp at hv
    · exact hinv.readerD j rD2 rDT2 rW2 rWT2 hold
  · intro j rD2 rDT2 rW2 rWT2 hj
    rcases getElem?_set_inv hlen hj with ⟨rfl, hv⟩ | ⟨hne, hold⟩
    · simp at hv
    · exact hinv.readerDT j rD2 rDT2 rW2 rWT2 hold
  · intro j rD2 rDT2 rW2 rWT2 hj
    rcases getElem?_set_inv hlen hj with ⟨rfl, hv⟩ | ⟨hne, hold⟩
    · simp at hv
    · exact hinv.readerW j rD2 rDT2 rW2 rWT2 hold
  · intro j rD2 rDT2 rW2 rWT2 hj
    rcases getElem?_set_inv hlen hj with ⟨rfl, hv⟩ | ⟨hne, hold⟩
    · simp at hv
    · exact hinv.readerWT j rD2 rDT2 rW2 rWT2 hold
  · intro j rD2 rDT2 rW2 rWT2 hj
    rcases getElem?_set_inv hlen hj with ⟨rfl, hv⟩ | ⟨hne, hold⟩
    · simp at hv
      obtain ⟨hD, hDT, hW, hWT⟩ := hinv.readerWT _ rD rDT rW rWT hget
      have hn := hinv.nestOk hnq
      have hw := hinv.weatherOk hwq
      constructor
      · rw [hv.1, hv.2.1, hD, hDT]
        exact hn
      · rw [hv.2.2.1, hv.2.2.2, hW, hWT]
        exact hw
    · exact hinv.readerDone j rD2 rDT2 rW2 rWT2 hold

end Conc

namespace Conc

/-- One step by any thread preserves the invariant. -/
theorem threadStep_inv {s s2 : SysState} {i : Nat} (hinv : Inv s)
    (hstep : threadStep s i = some s2) : Inv s2 := by
  unfold threadStep at hstep
  cases hget : s.threads[i]? with
  | none =>
    rw [hget] at hstep
    cases hstep
  | some th =>
    rw [hget] at hstep
    cases th with
    | nestWriter a t pc =>
      cases pc with
      | start =>
        cases hlock : s.lockOwner with
        | some k =>
          rw [hlock] at hstep
          cases hstep
        | none =>
          rw [hlock] at hstep
          injection hstep with h
          subst h
          exact inv_step_nestLock hinv hget hlock
      | locked =>
        injection hstep with h
        subst h
        exact inv_step_nestWriteData hinv hget
      | wroteData =>
        injection hstep with h
        subst h
        exact inv_step_nestWriteTime hinv hget
      | wroteTime =>
        injection hstep with h
        subst h
        exact inv_step_nestUnlock hinv hget
      | done => cases hstep
    | weatherWriter a t pc =>
      cases pc with
      | start =>
        cases hlock : s.lockOwner with
        | some k =>
          rw [hlock] at hstep
          cases hstep
        | none =>
          rw [hlock] at hstep
          injection hstep with h
          subst h
          exact inv_step_weatherLock hinv hget hlock
      | locked =>
        injection hstep with h
        subst h
        exact inv_step_weatherWriteData hinv hget
      | wroteData =>
        injection hstep with h
        subst h
        exact inv_step_weatherWriteTime hinv hget
      | wroteTime =>
        injection hstep with h
        subst h
        exact inv_step_weatherUnlock hinv hget
      | done => cases hstep
    | reader pc rD rDT rW rWT =>
      cases pc with
      | start =>
        cases hlock : s.lockOwner with
        | some k =>
          rw [hlock] at hstep
          cases hstep
        | none =>
          rw [hlock] at hstep
          injection hstep with h
          subst h
          exact inv_step_readerLock hinv hget hlock
      | locked =>
        injection hstep with h
        subst h
        exact inv_step_readerReadData hinv hget
      | gotData =>
        injection hstep with h
        subst h
        exact inv_step_readerReadDataTime hinv hget
      | gotDataTime =>
        injection hstep with h
        subst h
        exact inv_step_readerReadWeather hinv hget
      | gotWeather =>
        injection hstep with h
        subst h
        exact inv_step_readerReadWeatherTime hinv hget
      | gotWeatherTime =>
        injection hstep with h
        subst h
        exact inv_step_readerUnlock hinv hget
      | done => cases hstep

/-- The invariant holds after any schedule. -/
theorem run_inv (sched : List Nat) (s : SysState) (hinv : Inv s) :
    Inv (run s sched) := by
  induction sched generalizing s with
  | nil => exact hinv
  | cons i rest ih =>
    simp only [run]
    cases hstep : threadStep s i with
    | none => exact ih s hinv
    | some s2 => exact ih s2 (threadStep_inv hinv hstep)

/-- C1: under every interleaving of replace critical sections (pollers)
and read critical sections (`/data` handlers) over the mutex-guarded
cache, a completed read holds, per source, a (Reading, timestamp) pair
that is either the initial zero value or exactly the pair written by one
completed replace — never a field-level mix of two replaces. -/
theorem C1_reader_sees_single_replace (s0 : SysState) (sched : List Nat)
    (hinit : InitSys s0) (i : Nat) (rD : ThermostatData) (rDT : Nat)
    (rW : OwmWeatherMain) (rWT : Nat)
    (hdone : (run s0 sched).threads[i]?
      = some (Thread.reader ReaderPC.done rD rDT rW rWT)) :
    (rD, rDT) ∈ nestGoodPairs (run s0 sched) ∧
    (rW, rWT) ∈ weatherGoodPairs (run s0 sched) :=
  (run_inv sched s0 (inv_init hinit)).readerDone i rD rDT rW rWT hdone

/-- C1, witness: one nest replace (humidity-46 Reading, store time 5)
runs to completion, then one reader runs to completion; the reader's
thermostat pair is exactly the replace's pair. -/
theorem C1_witness :
    (({ currentHumidity := 46 } : ThermostatData), 5) ∈ nestGoodPairs
      (run
        { currentData := zeroThermostatData
          currentDataTime := 0
          currentWeather := zeroOwmWeatherMain
          currentWeatherTime := 0
          lockOwner := none
          threads := [Thread.nestWriter { currentHumidity := 46 } 5 WriterPC.start,
                      Thread.reader ReaderPC.start zeroThermostatData 0
                        zeroOwmWeatherMain 0]
          nestHistory := []
          weatherHistory := [] }
        [0, 0, 0, 0, 1, 1, 1, 1, 1, 1]) ∧
    ((zeroOwmWeatherMain, 0) ∈ weatherGoodPairs
      (run
        { currentData := zeroThermostatData
          currentDataTime := 0
          currentWeather := zeroOwmWeatherMain
          currentWeatherTime := 0
          lockOwner := none
          threads := [Thread.nestWriter { currentHumidity := 46 } 5 WriterPC.start,
                      Thread.reader ReaderPC.start zeroThermostatData 0
                        zeroOwmWeatherMain 0]
          nestHistory := []
          weatherHistory := [] }
        [0, 0, 0, 0, 1, 1, 1, 1, 1, 1])) :=
  C1_reader_sees_single_replace
    { currentData := zeroThermostatData
      currentDataTime := 0
      currentWeather := zeroOwmWeatherMain
      currentWeatherTime := 0
      lockOwner := none
      threads := [Thread.nestWriter { currentHumidity := 46 } 5 WriterPC.start,
                  Thread.reader ReaderPC.start zeroThermostatData 0
                    zeroOwmWeatherMain 0]
      nestHistory := []
      weatherHistory := [] }
    [0, 0, 0, 0, 1, 1, 1, 1, 1, 1]
    ⟨rfl, rfl, rfl, rfl, rfl, rfl, rfl, by decide⟩
    1 { currentHumidity := 46 } 5 zeroOwmWeatherMain 0 (by decide)

end Conc
